import Mathlib

/-!
Ocelot switch TC offload (drivers/net/ethernet/mscc/ocelot_tc.c).

A shallow embedding of the matchall/policer offload path of the Ocelot switch
driver, and theorems about it.

Conventions of the embedding.

* C unsigned integers are natural numbers; every operation that can wrap is
  written with an explicit reduction modulo the width of its C type.
  The fields `police_id`, `offload_cnt` and the rule cookie have the C type
  `unsigned long`, whose width is the platform constant `BITS_PER_LONG`.
* `int` results are integers; `0` is success, anything else an error.
* The port's `tc` record is passed in and returned (explicit state passing).
* Functions the driver calls but which live outside the translated file
  (the policer resource, the classifier framework, the flower hooks) are
  represented by their results, collected in `Collab`, and every call made to
  them is recorded, in order, in the `calls` list of the outcome. They are
  taken not to write the three `tc` fields.
* Diagnostics (`netdev_dbg`, `NL_SET_ERR_MSG_MOD`) are not modelled.
-/

namespace Ocelot

/-! ## Constants and types from headers -/

/-- Modelled from the spec: the errno constant behind "UnsupportedOperation";
the headers defining it are not part of the translated file. Only its being
non-zero and different from the other two is used. -/
def EOPNOTSUPP : Int := 95

/-- Modelled from the spec: the errno constant behind "ResourceConflict". -/
def EEXIST : Int := 17

/-- Modelled from the spec: the errno constant behind "NotFound". -/
def ENOENT : Int := 2

/-- Platform constants and scheduler-tick macros, declared in headers that are
not part of the translated file, taken as parameters.
`PSCHED_NS2TICKS x` is the value of the macro applied to the burst duration,
as the 64-bit operand of the multiplication. -/
structure Platform where
  BITS_PER_LONG : Nat
  PSCHED_TICKS_PER_SEC : Nat
  PSCHED_NS2TICKS : Nat → Nat

/-- The per-port state `struct ocelot_port_tc` (`port->tc`). -/
structure ocelot_port_tc where
  block_shared : Bool
  offload_cnt : Nat
  police_id : Nat
deriving DecidableEq, Repr

/-- The policer configuration `struct ocelot_policer`: two `u32` fields. -/
structure ocelot_policer where
  rate : Nat
  burst : Nat
deriving DecidableEq, Repr

/-- The action identifier `enum flow_action_id`; only `FLOW_ACTION_POLICE`
is distinguished by the driver. -/
inductive flow_action_id where
  | FLOW_ACTION_POLICE
  | FLOW_ACTION_OTHER (n : Nat)
deriving DecidableEq, Repr

/-- One entry of the action list, `struct flow_action_entry`, with the
`police` member flattened (`police.burst`, `police.rate_bytes_ps`). -/
structure flow_action_entry where
  id : flow_action_id
  police_burst : Nat
  police_rate_bytes_ps : Nat
deriving DecidableEq, Repr

/-- The action list `struct flow_action` (`f->rule->action`). -/
structure flow_action where
  entries : List flow_action_entry
deriving DecidableEq, Repr

/-- The command `enum tc_clsmatchall_command`, with a catch-all for any other
value of the field. -/
inductive tc_clsmatchall_command where
  | TC_CLSMATCHALL_REPLACE
  | TC_CLSMATCHALL_DESTROY
  | TC_CLSMATCHALL_STATS
  | TC_CLSMATCHALL_OTHER (n : Nat)
deriving DecidableEq, Repr

/-- The rule event `struct tc_cls_matchall_offload`. -/
structure tc_cls_matchall_offload where
  command : tc_clsmatchall_command
  action : flow_action
  cookie : Nat
deriving DecidableEq, Repr

/-- The request kind `enum tc_setup_type`, with a catch-all. -/
inductive tc_setup_type where
  | TC_SETUP_CLSMATCHALL
  | TC_SETUP_CLSFLOWER
  | TC_SETUP_BLOCK
  | TC_SETUP_OTHER (n : Nat)
deriving DecidableEq, Repr

/-- The block command `enum tc_block_command`, with a catch-all. -/
inductive tc_block_command where
  | TC_BLOCK_BIND
  | TC_BLOCK_UNBIND
  | TC_BLOCK_OTHER (n : Nat)
deriving DecidableEq, Repr

/-- The binder type `enum tcf_block_binder_type`, with a catch-all. -/
inductive tcf_block_binder_type where
  | TCF_BLOCK_BINDER_TYPE_CLSACT_INGRESS
  | TCF_BLOCK_BINDER_TYPE_CLSACT_EGRESS
  | TCF_BLOCK_BINDER_TYPE_OTHER (n : Nat)
deriving DecidableEq, Repr

/-- The classifier block `struct tcf_block`, reduced to its sharing state. -/
structure tcf_block where
  shared : Bool
deriving DecidableEq, Repr

/-- The block request `struct tc_block_offload`. -/
structure tc_block_offload where
  command : tc_block_command
  binder_type : tcf_block_binder_type
  block : tcf_block
deriving DecidableEq, Repr

/-- The two callback identities handed to the framework. -/
inductive tc_setup_cb_t where
  | ocelot_setup_tc_block_cb_ig
  | ocelot_setup_tc_block_cb_eg
deriving DecidableEq, Repr

/-- A call made to a collaborator outside the translated file. -/
inductive Call where
  | ocelot_port_policer_add (pol : ocelot_policer)
  | ocelot_port_policer_del
  | tcf_block_cb_register (cb : tc_setup_cb_t)
  | tcf_block_cb_unregister (cb : tc_setup_cb_t)
  | ocelot_setup_tc_block_flower_bind
  | ocelot_setup_tc_block_flower_unbind
deriving DecidableEq, Repr

/-- Results of the collaborators for one call into the driver. -/
structure Collab where
  ocelot_port_policer_add : ocelot_policer → Int
  ocelot_port_policer_del : Int
  tc_cls_can_offload_and_chain0 : Bool
  tcf_block_cb_register : Int
  ocelot_setup_tc_block_flower_bind : Int

/-- What one call into the driver produces: the returned `int`, the port's
`tc` record afterwards, and the collaborator calls made, in order. -/
structure Outcome where
  ret : Int
  tc : ocelot_port_tc
  calls : List Call
deriving DecidableEq, Repr

/-! ## Helpers from headers -/

/-- Modelled from the spec: `flow_offload_has_one_action`, a header helper
outside the translated file: the action list contains exactly one action. -/
def flow_offload_has_one_action (action : flow_action) : Bool :=
  action.entries.length == 1

/-- Modelled from the spec: `div_u64`, a header helper outside the translated
file: rounded-down division of a `u64` dividend by a `u32` divisor. -/
def div_u64 (dividend divisor : Nat) : Nat :=
  (dividend % 2 ^ 64) / (divisor % 2 ^ 32)

/-- Modelled from the spec: `tcf_block_shared`, a header helper outside the
translated file: whether the block is shared by several owners. -/
def tcf_block_shared (block : tcf_block) : Bool :=
  block.shared

/-! ## The translated functions -/

/-- The right-hand side of `pol.rate = (u32)div_u64(rate_bytes_ps, 1000) * 8`:
the quotient is cast to `u32` and the multiplication is done in `u32`. -/
def pol_rate (rate_bytes_ps : Nat) : Nat :=
  ((div_u64 rate_bytes_ps 1000) % 2 ^ 32 * 8) % 2 ^ 32

/-- The right-hand side of
`pol.burst = (u32)div_u64(rate_bytes_ps * PSCHED_NS2TICKS(burst), PSCHED_TICKS_PER_SEC)`:
the product is a `u64` product, the quotient is cast to `u32`. -/
def pol_burst (P : Platform) (rate_bytes_ps burst : Nat) : Nat :=
  (div_u64 ((rate_bytes_ps * P.PSCHED_NS2TICKS burst) % 2 ^ 64)
    P.PSCHED_TICKS_PER_SEC) % 2 ^ 32

/-- The statement `port->tc.offload_cnt++` on an `unsigned long`. -/
def offload_cnt_inc (P : Platform) (cnt : Nat) : Nat :=
  (cnt + 1) % 2 ^ P.BITS_PER_LONG

/-- The statement `port->tc.offload_cnt--` on an `unsigned long`. -/
def offload_cnt_dec (P : Platform) (cnt : Nat) : Nat :=
  (cnt + (2 ^ P.BITS_PER_LONG - 1)) % 2 ^ P.BITS_PER_LONG

/-- The function `ocelot_setup_tc_cls_matchall`. -/
def ocelot_setup_tc_cls_matchall (P : Platform) (X : Collab)
    (tc : ocelot_port_tc) (f : tc_cls_matchall_offload) (ingress : Bool) :
    Outcome :=
  if !ingress then
    ⟨-EOPNOTSUPP, tc, []⟩
  else
    match f.command with
    | .TC_CLSMATCHALL_REPLACE =>
      if !flow_offload_has_one_action f.action then
        ⟨-EOPNOTSUPP, tc, []⟩
      else if tc.block_shared then
        ⟨-EOPNOTSUPP, tc, []⟩
      else
        match f.action.entries with
        | [] => ⟨-EOPNOTSUPP, tc, []⟩
        | action :: _ =>
          if action.id ≠ flow_action_id.FLOW_ACTION_POLICE then
            ⟨-EOPNOTSUPP, tc, []⟩
          else if tc.police_id ≠ 0 ∧ tc.police_id ≠ f.cookie then
            ⟨-EEXIST, tc, []⟩
          else
            let pol : ocelot_policer :=
              ⟨pol_rate action.police_rate_bytes_ps,
               pol_burst P action.police_rate_bytes_ps action.police_burst⟩
            let err := X.ocelot_port_policer_add pol
            if err ≠ 0 then
              ⟨err, tc, [Call.ocelot_port_policer_add pol]⟩
            else
              ⟨0, ⟨tc.block_shared, offload_cnt_inc P tc.offload_cnt, f.cookie⟩,
                [Call.ocelot_port_policer_add pol]⟩
    | .TC_CLSMATCHALL_DESTROY =>
      if tc.police_id ≠ f.cookie then
        ⟨-ENOENT, tc, []⟩
      else
        let err := X.ocelot_port_policer_del
        if err ≠ 0 then
          ⟨err, tc, [Call.ocelot_port_policer_del]⟩
        else
          ⟨0, ⟨tc.block_shared, offload_cnt_dec P tc.offload_cnt, 0⟩,
            [Call.ocelot_port_policer_del]⟩
    | _ => ⟨-EOPNOTSUPP, tc, []⟩

/-- The function `ocelot_setup_tc_block_cb`. The request data is given as the
matchall event it denotes when the kind is matchall. -/
def ocelot_setup_tc_block_cb (P : Platform) (X : Collab)
    (type : tc_setup_type) (type_data : tc_cls_matchall_offload)
    (cb_priv : ocelot_port_tc) (ingress : Bool) : Outcome :=
  if !X.tc_cls_can_offload_and_chain0 then
    ⟨-EOPNOTSUPP, cb_priv, []⟩
  else
    match type with
    | .TC_SETUP_CLSMATCHALL =>
      ocelot_setup_tc_cls_matchall P X cb_priv type_data ingress
    | .TC_SETUP_CLSFLOWER => ⟨0, cb_priv, []⟩
    | _ => ⟨-EOPNOTSUPP, cb_priv, []⟩

/-- The function `ocelot_setup_tc_block_cb_ig`. -/
def ocelot_setup_tc_block_cb_ig (P : Platform) (X : Collab)
    (type : tc_setup_type) (type_data : tc_cls_matchall_offload)
    (cb_priv : ocelot_port_tc) : Outcome :=
  ocelot_setup_tc_block_cb P X type type_data cb_priv true

/-- The function `ocelot_setup_tc_block_cb_eg`. -/
def ocelot_setup_tc_block_cb_eg (P : Platform) (X : Collab)
    (type : tc_setup_type) (type_data : tc_cls_matchall_offload)
    (cb_priv : ocelot_port_tc) : Outcome :=
  ocelot_setup_tc_block_cb P X type type_data cb_priv false

/-- The second half of `ocelot_setup_tc_block`: the `switch (f->command)`,
entered with the callback `cb` chosen and `tc` as left by the first half. -/
def ocelot_setup_tc_block_command (X : Collab) (tc : ocelot_port_tc)
    (f : tc_block_offload) (cb : tc_setup_cb_t) : Outcome :=
  match f.command with
  | .TC_BLOCK_BIND =>
    let ret := X.tcf_block_cb_register
    if ret ≠ 0 then
      ⟨ret, tc, [Call.tcf_block_cb_register cb]⟩
    else
      ⟨X.ocelot_setup_tc_block_flower_bind, tc,
        [Call.tcf_block_cb_register cb, Call.ocelot_setup_tc_block_flower_bind]⟩
  | .TC_BLOCK_UNBIND =>
    ⟨0, tc, [Call.ocelot_setup_tc_block_flower_unbind,
             Call.tcf_block_cb_unregister cb]⟩
  | _ => ⟨-EOPNOTSUPP, tc, []⟩

/-- The function `ocelot_setup_tc_block`. -/
def ocelot_setup_tc_block (X : Collab) (tc : ocelot_port_tc)
    (f : tc_block_offload) : Outcome :=
  match f.binder_type with
  | .TCF_BLOCK_BINDER_TYPE_CLSACT_INGRESS =>
    ocelot_setup_tc_block_command X
      ⟨tcf_block_shared f.block, tc.offload_cnt, tc.police_id⟩ f
      tc_setup_cb_t.ocelot_setup_tc_block_cb_ig
  | .TCF_BLOCK_BINDER_TYPE_CLSACT_EGRESS =>
    ocelot_setup_tc_block_command X tc f
      tc_setup_cb_t.ocelot_setup_tc_block_cb_eg
  | _ => ⟨-EOPNOTSUPP, tc, []⟩

/-- The function `ocelot_setup_tc`. -/
def ocelot_setup_tc (X : Collab) (tc : ocelot_port_tc)
    (type : tc_setup_type) (type_data : tc_block_offload) : Outcome :=
  match type with
  | .TC_SETUP_BLOCK => ocelot_setup_tc_block X tc type_data
  | _ => ⟨-EOPNOTSUPP, tc, []⟩

/-! ## Concrete values used to instantiate the general theorems -/

/-- A 64-bit platform with the scheduler tick of 64 ns. -/
def platform64 : Platform :=
  ⟨64, 1000000000 / 2 ^ 6, fun x => x / 2 ^ 6⟩

/-- Collaborators that all succeed. -/
def collabOk : Collab :=
  ⟨fun _ => 0, 0, true, 0, 0⟩

/-- Collaborators whose policer calls fail with `e`. -/
def collabFail (e : Int) : Collab :=
  ⟨fun _ => e, e, true, 0, 0⟩

/-- Collaborators whose callback registration fails with `e`. -/
def collabRegisterFail (e : Int) : Collab :=
  ⟨fun _ => 0, 0, true, e, 0⟩

/-- A single police action. -/
def policeAction (rate_bytes_ps burst : Nat) : flow_action :=
  ⟨[⟨flow_action_id.FLOW_ACTION_POLICE, burst, rate_bytes_ps⟩]⟩

/-! ## Sequences of requests on one port -/

/-- One rule event delivered through a registered callback: the results of
the collaborators during the call, the event kind, the event, and the
direction of the callback it arrives on. -/
structure RuleEvent where
  X : Collab
  type : tc_setup_type
  type_data : tc_cls_matchall_offload
  ingress : Bool

/-- One request to the driver for a port: a rule event, or a block request
together with the results of the collaborators during the call. -/
inductive Request where
  | rule (e : RuleEvent)
  | block (X : Collab) (f : tc_block_offload)

/-- Delivery of a rule event: the call of `ocelot_setup_tc_block_cb` that the
callback of the event's direction makes. -/
def deliver (P : Platform) (tc : ocelot_port_tc) (e : RuleEvent) : Outcome :=
  ocelot_setup_tc_block_cb P e.X e.type e.type_data tc e.ingress

/-- Handling of one request in state `tc`. -/
def handle (P : Platform) (tc : ocelot_port_tc) : Request → Outcome
  | .rule e => deliver P tc e
  | .block X f => ocelot_setup_tc_block X tc f

/-- The tc state after a sequence of requests, handled one after the other
(the caller serialises them). -/
def run (P : Platform) (tc : ocelot_port_tc) : List Request → ocelot_port_tc
  | [] => tc
  | r :: rs => run P (handle P tc r).tc rs

/-- The sharing state carried by the latest ingress block request of a
sequence, or `current` when the sequence has none. -/
def latest_ingress_sample (current : Bool) : List Request → Bool
  | [] => current
  | .rule _ :: rs => latest_ingress_sample current rs
  | .block _ f :: rs =>
    match f.binder_type with
    | .TCF_BLOCK_BINDER_TYPE_CLSACT_INGRESS =>
      latest_ingress_sample (tcf_block_shared f.block) rs
    | _ => latest_ingress_sample current rs

/-- A request is regular in state `tc` unless it is a matchall event that
carries cookie 0, or a matchall REPLACE that carries the cookie of the
current owner. -/
def regular_request (tc : ocelot_port_tc) : Request → Bool
  | .rule e =>
    match e.type with
    | .TC_SETUP_CLSMATCHALL =>
      e.type_data.cookie != 0 &&
        !(e.type_data.command == tc_clsmatchall_command.TC_CLSMATCHALL_REPLACE
          && e.type_data.cookie == tc.police_id)
    | _ => true
  | .block _ _ => true

/-- Every request of the sequence is regular in the state it arrives in. -/
def regular_trace (P : Platform) (tc : ocelot_port_tc) : List Request → Bool
  | [] => true
  | r :: rs => regular_request tc r && regular_trace P (handle P tc r).tc rs

/-- Whether one of the calls is a policer install that succeeded. -/
def install_succeeded (X : Collab) (calls : List Call) : Bool :=
  calls.any fun c =>
    match c with
    | Call.ocelot_port_policer_add pol =>
      decide (X.ocelot_port_policer_add pol = 0)
    | _ => false

/-- Whether one of the calls is a policer removal that succeeded. -/
def removal_succeeded (X : Collab) (calls : List Call) : Bool :=
  calls.any fun c =>
    match c with
    | Call.ocelot_port_policer_del => decide (X.ocelot_port_policer_del = 0)
    | _ => false

/-- The tc state together with a model of the hardware slot: `installed` is
set by a successful install and cleared by a successful removal, `installer`
is the cookie of the event whose install last succeeded, and `clash` records
that an install succeeded, with a cookie other than `installer`, while the
slot was still occupied. -/
structure Slot where
  tc : ocelot_port_tc
  installed : Bool
  installer : Nat
  clash : Bool
deriving DecidableEq, Repr

/-- The effect of one rule event on the state and the slot model. -/
def slot_step (P : Platform) (g : Slot) (e : RuleEvent) : Slot :=
  let o := deliver P g.tc e
  if install_succeeded e.X o.calls then
    ⟨o.tc, true, e.type_data.cookie,
      g.clash || (g.installed && e.type_data.cookie != g.installer)⟩
  else if removal_succeeded e.X o.calls then
    ⟨o.tc, false, g.installer, g.clash⟩
  else
    ⟨o.tc, g.installed, g.installer, g.clash⟩

/-- The state and the slot model after a sequence of rule events. -/
def slot_run (P : Platform) (g : Slot) : List RuleEvent → Slot
  | [] => g
  | e :: es => slot_run P (slot_step P g e) es

/-- The initial state of a port with its slot model: nothing installed. -/
def slot_init (block_shared : Bool) : Slot :=
  ⟨⟨block_shared, 0, 0⟩, false, 0, false⟩

/-! ## Theorems -/

open tc_clsmatchall_command tc_setup_type tc_block_command
  tcf_block_binder_type flow_action_id

/-- A REPLACE that passed every check before the policer is programmed calls
the policer resource once, with the computed configuration, whatever the
outcome of that call. -/
theorem matchall_replace_calls (P : Platform) (X : Collab)
    (tc : ocelot_port_tc) (f : tc_cls_matchall_offload)
    (a : flow_action_entry)
    (hcmd : f.command = TC_CLSMATCHALL_REPLACE)
    (hact : f.action.entries = [a]) (hid : a.id = FLOW_ACTION_POLICE)
    (hns : tc.block_shared = false)
    (hown : tc.police_id = 0 ∨ tc.police_id = f.cookie) :
    (ocelot_setup_tc_cls_matchall P X tc f true).calls =
      [Call.ocelot_port_policer_add
        ⟨pol_rate a.police_rate_bytes_ps,
         pol_burst P a.police_rate_bytes_ps a.police_burst⟩] := by
  have hguard : ¬ (tc.police_id ≠ 0 ∧ tc.police_id ≠ f.cookie) := by
    rcases hown with h | h
    · exact fun hh => hh.1 h
    · exact fun hh => hh.2 h
  simp only [ocelot_setup_tc_cls_matchall, hcmd, hact, hid, hns,
    flow_offload_has_one_action]
  by_cases hadd : X.ocelot_port_policer_add
      ⟨pol_rate a.police_rate_bytes_ps,
       pol_burst P a.police_rate_bytes_ps a.police_burst⟩ = 0
  · simp [hguard, hadd]
  · simp [hguard, hadd]

/-- Whatever the input, `ocelot_setup_tc_cls_matchall` either returns 0 or
leaves the tc state as it was. -/
theorem matchall_error_frame (P : Platform) (X : Collab)
    (tc : ocelot_port_tc) (f : tc_cls_matchall_offload) (ingress : Bool) :
    (ocelot_setup_tc_cls_matchall P X tc f ingress).ret = 0 ∨
    (ocelot_setup_tc_cls_matchall P X tc f ingress).tc = tc := by
  unfold ocelot_setup_tc_cls_matchall
  repeat' split
  all_goals first
    | exact Or.inr rfl
    | (dsimp only; split_ifs <;> simp)

/-- Whatever the input, `ocelot_setup_tc_block_cb` either returns 0 or leaves
the tc state as it was. -/
theorem block_cb_error_frame (P : Platform) (X : Collab)
    (type : tc_setup_type) (type_data : tc_cls_matchall_offload)
    (tc : ocelot_port_tc) (ingress : Bool) :
    (ocelot_setup_tc_block_cb P X type type_data tc ingress).ret = 0 ∨
    (ocelot_setup_tc_block_cb P X type type_data tc ingress).tc = tc := by
  unfold ocelot_setup_tc_block_cb
  split
  · exact Or.inr rfl
  · split
    · exact matchall_error_frame P X tc type_data ingress
    · exact Or.inl rfl
    · exact Or.inr rfl

/-- The command half of `ocelot_setup_tc_block` never writes the tc state. -/
theorem block_command_frame (X : Collab) (tc : ocelot_port_tc)
    (f : tc_block_offload) (cb : tc_setup_cb_t) :
    (ocelot_setup_tc_block_command X tc f cb).tc = tc := by
  unfold ocelot_setup_tc_block_command
  repeat' split
  all_goals first
    | rfl
    | (dsimp only; split_ifs <;> rfl)

/-- The possible outcomes of delivering a rule event: no call and no change;
a failed install and no change; a successful install by a matchall REPLACE
on a port whose owner is 0 or the cookie; a failed removal and no change; a
successful removal by a matchall DESTROY carrying the owner's cookie. -/
theorem deliver_cases (P : Platform) (tc : ocelot_port_tc) (e : RuleEvent) :
    ((deliver P tc e).calls = [] ∧ (deliver P tc e).tc = tc) ∨
    (∃ pol, (deliver P tc e).calls = [Call.ocelot_port_policer_add pol] ∧
      e.X.ocelot_port_policer_add pol ≠ 0 ∧ (deliver P tc e).tc = tc) ∨
    (∃ pol, (deliver P tc e).calls = [Call.ocelot_port_policer_add pol] ∧
      e.X.ocelot_port_policer_add pol = 0 ∧
      (deliver P tc e).tc =
        ⟨tc.block_shared, offload_cnt_inc P tc.offload_cnt,
          e.type_data.cookie⟩ ∧
      (tc.police_id = 0 ∨ tc.police_id = e.type_data.cookie) ∧
      e.type = TC_SETUP_CLSMATCHALL ∧
      e.type_data.command = TC_CLSMATCHALL_REPLACE) ∨
    ((deliver P tc e).calls = [Call.ocelot_port_policer_del] ∧
      e.X.ocelot_port_policer_del ≠ 0 ∧ (deliver P tc e).tc = tc) ∨
    ((deliver P tc e).calls = [Call.ocelot_port_policer_del] ∧
      e.X.ocelot_port_policer_del = 0 ∧
      (deliver P tc e).tc =
        ⟨tc.block_shared, offload_cnt_dec P tc.offload_cnt, 0⟩ ∧
      tc.police_id = e.type_data.cookie ∧
      e.type = TC_SETUP_CLSMATCHALL ∧
      e.type_data.command = TC_CLSMATCHALL_DESTROY) := by
  unfold deliver ocelot_setup_tc_block_cb
  split
  · exact Or.inl ⟨rfl, rfl⟩
  · split
    · rename_i htype
      unfold ocelot_setup_tc_cls_matchall
      split
      · exact Or.inl ⟨rfl, rfl⟩
      · split
        · rename_i hcmd
          split
          · exact Or.inl ⟨rfl, rfl⟩
          · split
            · exact Or.inl ⟨rfl, rfl⟩
            · split
              · exact Or.inl ⟨rfl, rfl⟩
              · rename_i action rest hent
                split
                · exact Or.inl ⟨rfl, rfl⟩
                · split
                  · exact Or.inl ⟨rfl, rfl⟩
                  · rename_i hguard
                    have hown : tc.police_id = 0 ∨
                        tc.police_id = e.type_data.cookie := by
                      by_cases h0 : tc.police_id = 0
                      · exact Or.inl h0
                      · by_cases h1 : tc.police_id = e.type_data.cookie
                        · exact Or.inr h1
                        · exact absurd ⟨h0, h1⟩ hguard
                    dsimp only
                    split
                    · rename_i herr
                      exact Or.inr (Or.inl ⟨_, rfl, herr, rfl⟩)
                    · rename_i herr
                      exact Or.inr (Or.inr (Or.inl
                        ⟨_, rfl, not_not.mp herr, rfl, hown, htype, hcmd⟩))
        · rename_i hcmd
          split
          · exact Or.inl ⟨rfl, rfl⟩
          · rename_i hck
            dsimp only
            split
            · rename_i herr
              exact Or.inr (Or.inr (Or.inr (Or.inl ⟨rfl, herr, rfl⟩)))
            · rename_i herr
              exact Or.inr (Or.inr (Or.inr (Or.inr
                ⟨rfl, not_not.mp herr, rfl, not_not.mp hck, htype, hcmd⟩)))
        · exact Or.inl ⟨rfl, rfl⟩
    · exact Or.inl ⟨rfl, rfl⟩
    · exact Or.inl ⟨rfl, rfl⟩

/-- Delivering a rule event never writes the shared flag. -/
theorem deliver_keeps_shared (P : Platform) (tc : ocelot_port_tc)
    (e : RuleEvent) :
    (deliver P tc e).tc.block_shared = tc.block_shared := by
  rcases deliver_cases P tc e with h | ⟨_, _, _, h⟩ | ⟨_, _, _, h, _⟩ |
    ⟨_, _, h⟩ | ⟨_, _, h, _⟩
  · rw [h.2]
  · rw [h]
  · rw [h]
  · rw [h]
  · rw [h]

/-- A block request never writes the owner nor the offload count. -/
theorem block_keeps_owner_count (X : Collab) (tc : ocelot_port_tc)
    (f : tc_block_offload) :
    (ocelot_setup_tc_block X tc f).tc.police_id = tc.police_id ∧
    (ocelot_setup_tc_block X tc f).tc.offload_cnt = tc.offload_cnt := by
  unfold ocelot_setup_tc_block
  split
  · rw [block_command_frame]
    exact ⟨rfl, rfl⟩
  · rw [block_command_frame]
    exact ⟨rfl, rfl⟩
  · exact ⟨rfl, rfl⟩

/-- One regular request keeps the relation between the offload count and the
owner: the count is 1 when the owner is not 0, and 0 otherwise. -/
theorem handle_count_matches_owner (P : Platform)
    (hbits : 0 < P.BITS_PER_LONG) (tc : ocelot_port_tc) (r : Request)
    (hJ : tc.offload_cnt = if tc.police_id ≠ 0 then 1 else 0)
    (hreg : regular_request tc r = true) :
    (handle P tc r).tc.offload_cnt =
      if (handle P tc r).tc.police_id ≠ 0 then 1 else 0 := by
  have hpow : 1 < 2 ^ P.BITS_PER_LONG := Nat.one_lt_two_pow (by omega)
  cases r with
  | block X f =>
    obtain ⟨hid, hcnt⟩ := block_keeps_owner_count X tc f
    show (ocelot_setup_tc_block X tc f).tc.offload_cnt =
      if (ocelot_setup_tc_block X tc f).tc.police_id ≠ 0 then 1 else 0
    rw [hid, hcnt]
    exact hJ
  | rule e =>
    show (deliver P tc e).tc.offload_cnt =
      if (deliver P tc e).tc.police_id ≠ 0 then 1 else 0
    rcases deliver_cases P tc e with h | ⟨_, _, _, h⟩ |
      ⟨_, _, _, h, hown, htype, hcmd⟩ | ⟨_, _, h⟩ |
      ⟨_, _, h, hown, htype, hcmd⟩
    · rw [h.2]; exact hJ
    · rw [h]; exact hJ
    · rw [h]
      simp only [regular_request, htype, hcmd] at hreg
      simp at hreg
      have hzero : tc.police_id = 0 := by
        rcases hown with h0 | h1
        · exact h0
        · exact absurd h1.symm hreg.2
      rw [hzero] at hJ
      simp only [ne_eq, not_true_eq_false, if_false] at hJ
      show offload_cnt_inc P tc.offload_cnt =
        if e.type_data.cookie ≠ 0 then 1 else 0
      rw [hJ, if_pos hreg.1]
      exact Nat.mod_eq_of_lt hpow
    · rw [h]; exact hJ
    · rw [h]
      simp only [regular_request, htype] at hreg
      simp at hreg
      have hne : tc.police_id ≠ 0 := by
        rw [hown]
        exact hreg.1
      rw [if_pos hne] at hJ
      show offload_cnt_dec P tc.offload_cnt = if (0 : Nat) ≠ 0 then 1 else 0
      rw [hJ]
      unfold offload_cnt_dec
      have hsum : 1 + (2 ^ P.BITS_PER_LONG - 1) = 2 ^ P.BITS_PER_LONG := by
        omega
      rw [hsum, Nat.mod_self]
      simp

/-- A regular sequence of requests keeps the relation between the offload
count and the owner. -/
theorem run_count_matches_owner (P : Platform)
    (hbits : 0 < P.BITS_PER_LONG) (rs : List Request) :
    ∀ tc : ocelot_port_tc,
      (tc.offload_cnt = if tc.police_id ≠ 0 then 1 else 0) →
      regular_trace P tc rs = true →
      (run P tc rs).offload_cnt =
        if (run P tc rs).police_id ≠ 0 then 1 else 0 := by
  induction rs with
  | nil =>
    intro tc hJ _
    exact hJ
  | cons r rs ih =>
    intro tc hJ hreg
    simp only [regular_trace, Bool.and_eq_true] at hreg
    exact ih (handle P tc r).tc
      (handle_count_matches_owner P hbits tc r hJ hreg.1) hreg.2

/-- A block request on the ingress direction sets the shared flag to the
sharing state of its block; any other block request leaves the flag. -/
theorem block_shared_flag (X : Collab) (tc : ocelot_port_tc)
    (f : tc_block_offload) :
    (f.binder_type = TCF_BLOCK_BINDER_TYPE_CLSACT_INGRESS →
      (ocelot_setup_tc_block X tc f).tc.block_shared =
        tcf_block_shared f.block) ∧
    (f.binder_type ≠ TCF_BLOCK_BINDER_TYPE_CLSACT_INGRESS →
      (ocelot_setup_tc_block X tc f).tc.block_shared = tc.block_shared) := by
  constructor
  · intro hb
    unfold ocelot_setup_tc_block
    rw [hb]
    show (ocelot_setup_tc_block_command X _ f _).tc.block_shared = _
    rw [block_command_frame]
  · intro hb
    unfold ocelot_setup_tc_block
    split
    · rename_i h; exact absurd h hb
    · rw [block_command_frame]
    · rfl

/-- After any sequence of requests the shared flag is the sharing state
carried by the latest ingress block request, or its starting value. -/
theorem run_shared_flag (P : Platform) (rs : List Request) :
    ∀ tc : ocelot_port_tc,
      (run P tc rs).block_shared =
        latest_ingress_sample tc.block_shared rs := by
  induction rs with
  | nil => intro tc; rfl
  | cons r rs ih =>
    intro tc
    cases r with
    | rule e =>
      show (run P (deliver P tc e).tc rs).block_shared =
        latest_ingress_sample tc.block_shared rs
      rw [ih, deliver_keeps_shared]
    | block X f =>
      show (run P (ocelot_setup_tc_block X tc f).tc rs).block_shared =
        latest_ingress_sample tc.block_shared (Request.block X f :: rs)
      rw [ih]
      by_cases hb : f.binder_type = TCF_BLOCK_BINDER_TYPE_CLSACT_INGRESS
      · rw [(block_shared_flag X tc f).1 hb]
        simp only [latest_ingress_sample, hb]
      · rw [(block_shared_flag X tc f).2 hb]
        simp only [latest_ingress_sample]

/-- One rule event whose matchall cookie is not 0 keeps the agreement of the
slot model with the owner field: the slot is occupied exactly when the owner
is not 0, the owner is then the cookie that installed last, and no clash
has been recorded. -/
theorem slot_step_agrees (P : Platform) (g : Slot) (e : RuleEvent)
    (hocc : g.installed = true ↔ g.tc.police_id ≠ 0)
    (hwho : g.installed = true → g.tc.police_id = g.installer)
    (hclash : g.clash = false)
    (hck : e.type = TC_SETUP_CLSMATCHALL → e.type_data.cookie ≠ 0) :
    ((slot_step P g e).installed = true ↔
        (slot_step P g e).tc.police_id ≠ 0) ∧
    ((slot_step P g e).installed = true →
        (slot_step P g e).tc.police_id = (slot_step P g e).installer) ∧
    (slot_step P g e).clash = false := by
  unfold slot_step
  rcases deliver_cases P g.tc e with ⟨hc, ht⟩ | ⟨pol, hc, hx, ht⟩ |
    ⟨pol, hc, hx, ht, hown, htype, _⟩ | ⟨hc, hx, ht⟩ |
    ⟨hc, hx, ht, _, _, _⟩
  · simp only [hc, ht, install_succeeded, removal_succeeded, List.any_nil]
    exact ⟨hocc, hwho, hclash⟩
  · simp only [hc, ht, install_succeeded, removal_succeeded, List.any_cons,
      List.any_nil, hx, decide_False, Bool.or_false]
    exact ⟨hocc, hwho, hclash⟩
  · have hcookie : e.type_data.cookie ≠ 0 := hck htype
    simp only [hc, ht, install_succeeded, List.any_cons, List.any_nil, hx,
      decide_True, Bool.or_false, if_true]
    refine ⟨by simp [hcookie], by simp, ?_⟩
    rw [hclash, Bool.false_or]
    cases hinst : g.installed with
    | false => rfl
    | true =>
      have hne : g.tc.police_id ≠ 0 := hocc.mp hinst
      have hsame : g.tc.police_id = e.type_data.cookie := by
        rcases hown with h0 | h1
        · exact absurd h0 hne
        · exact h1
      have hinstaller : e.type_data.cookie = g.installer := by
        rw [← hsame]
        exact hwho hinst
      simp [hinstaller]
  · simp only [hc, ht, install_succeeded, removal_succeeded, List.any_cons,
      List.any_nil, hx, decide_False, Bool.or_false]
    exact ⟨hocc, hwho, hclash⟩
  · simp only [hc, ht, install_succeeded, removal_succeeded, List.any_cons,
      List.any_nil, hx, decide_True, Bool.or_false, if_true]
    refine ⟨?_, ?_, hclash⟩
    · simp
    · intro h
      simp at h

/-- A sequence of rule events whose matchall cookies are not 0 keeps the
agreement of the slot model with the owner field. -/
theorem slot_run_agrees (P : Platform) (es : List RuleEvent) :
    ∀ g : Slot,
      (g.installed = true ↔ g.tc.police_id ≠ 0) →
      (g.installed = true → g.tc.police_id = g.installer) →
      g.clash = false →
      (∀ e ∈ es, e.type = TC_SETUP_CLSMATCHALL → e.type_data.cookie ≠ 0) →
      ((slot_run P g es).installed = true ↔
          (slot_run P g es).tc.police_id ≠ 0) ∧
      ((slot_run P g es).installed = true →
          (slot_run P g es).tc.police_id = (slot_run P g es).installer) ∧
      (slot_run P g es).clash = false := by
  induction es with
  | nil =>
    intro g hocc hwho hclash _
    exact ⟨hocc, hwho, hclash⟩
  | cons e es ih =>
    intro g hocc hwho hclash hck
    obtain ⟨h1, h2, h3⟩ := slot_step_agrees P g e hocc hwho hclash
      (hck e (List.mem_cons_self e es))
    exact ih (slot_step P g e) h1 h2 h3
      (fun e' he' => hck e' (List.mem_cons_of_mem e he'))

/-- Claim C1: on a port whose policer is owned by a non-zero cookie, an ingress
REPLACE with exactly one police action, a non-shared block and a different
cookie returns -EEXIST, makes no call to the policer resource and leaves
the whole tc state (owner, offload count, shared flag) as it was. -/
theorem C1_replace_foreign_cookie_eexist (P : Platform) (X : Collab)
    (tc : ocelot_port_tc) (f : tc_cls_matchall_offload)
    (a : flow_action_entry)
    (hown : tc.police_id ≠ 0)
    (hcmd : f.command = TC_CLSMATCHALL_REPLACE)
    (hact : f.action.entries = [a]) (hid : a.id = FLOW_ACTION_POLICE)
    (hns : tc.block_shared = false)
    (hck : f.cookie ≠ tc.police_id) :
    ocelot_setup_tc_cls_matchall P X tc f true = ⟨-EEXIST, tc, []⟩ := by
  have hck2 : tc.police_id ≠ f.cookie := fun h => hck h.symm
  simp [ocelot_setup_tc_cls_matchall, hcmd, hact, hid, hns, hown, hck2,
    flow_offload_has_one_action]

/-- Instance of C1: owner 7, REPLACE with cookie 9. -/
theorem C1_replace_foreign_cookie_eexist_witness :
    ocelot_setup_tc_cls_matchall platform64 collabOk ⟨false, 1, 7⟩
      ⟨TC_CLSMATCHALL_REPLACE, policeAction 125000 1000000, 9⟩ true
      = ⟨-EEXIST, ⟨false, 1, 7⟩, []⟩ :=
  C1_replace_foreign_cookie_eexist platform64 collabOk ⟨false, 1, 7⟩
    ⟨TC_CLSMATCHALL_REPLACE, policeAction 125000 1000000, 9⟩
    ⟨FLOW_ACTION_POLICE, 1000000, 125000⟩
    (by decide) rfl rfl rfl rfl (by decide)

/-- Claim C2: on a port whose policer is owned by the non-zero cookie C, an
ingress DESTROY with cookie C whose removal succeeds returns 0, calls the
removal once, clears the owner and decrements the offload count by one in
unsigned long arithmetic (exactly one less whenever the count is positive);
an ingress DESTROY with any other cookie returns -ENOENT, makes no call and
leaves the tc state as it was. -/
theorem C2_destroy_owner_and_foreign (P : Platform) (X : Collab)
    (tc : ocelot_port_tc) (f : tc_cls_matchall_offload)
    (_hown : tc.police_id ≠ 0)
    (hcmd : f.command = TC_CLSMATCHALL_DESTROY) :
    (f.cookie = tc.police_id → X.ocelot_port_policer_del = 0 →
      (ocelot_setup_tc_cls_matchall P X tc f true).ret = 0 ∧
      (ocelot_setup_tc_cls_matchall P X tc f true).calls =
        [Call.ocelot_port_policer_del] ∧
      (ocelot_setup_tc_cls_matchall P X tc f true).tc.police_id = 0 ∧
      (ocelot_setup_tc_cls_matchall P X tc f true).tc.block_shared =
        tc.block_shared ∧
      (ocelot_setup_tc_cls_matchall P X tc f true).tc.offload_cnt =
        (tc.offload_cnt + (2 ^ P.BITS_PER_LONG - 1)) % 2 ^ P.BITS_PER_LONG ∧
      (0 < tc.offload_cnt → tc.offload_cnt < 2 ^ P.BITS_PER_LONG →
        (ocelot_setup_tc_cls_matchall P X tc f true).tc.offload_cnt + 1 =
          tc.offload_cnt)) ∧
    (f.cookie ≠ tc.police_id →
      ocelot_setup_tc_cls_matchall P X tc f true = ⟨-ENOENT, tc, []⟩) := by
  constructor
  · intro hck hdel
    have hres : ocelot_setup_tc_cls_matchall P X tc f true =
        ⟨0, ⟨tc.block_shared, offload_cnt_dec P tc.offload_cnt, 0⟩,
          [Call.ocelot_port_policer_del]⟩ := by
      simp [ocelot_setup_tc_cls_matchall, hcmd, hck, hdel]
    rw [hres]
    refine ⟨rfl, rfl, rfl, rfl, rfl, ?_⟩
    intro hpos hlt
    show offload_cnt_dec P tc.offload_cnt + 1 = tc.offload_cnt
    unfold offload_cnt_dec
    have hsplit : tc.offload_cnt + (2 ^ P.BITS_PER_LONG - 1) =
        (tc.offload_cnt - 1) + 2 ^ P.BITS_PER_LONG := by omega
    rw [hsplit, Nat.add_mod_right, Nat.mod_eq_of_lt (by omega)]
    omega
  · intro hck
    have hck2 : tc.police_id ≠ f.cookie := fun h => hck h.symm
    simp [ocelot_setup_tc_cls_matchall, hcmd, hck2]

/-- Instance of C2: owner 7 with count 1, DESTROY with cookie 7. -/
theorem C2_destroy_owner_and_foreign_witness :
    (ocelot_setup_tc_cls_matchall platform64 collabOk ⟨false, 1, 7⟩
        ⟨TC_CLSMATCHALL_DESTROY, ⟨[]⟩, 7⟩ true).ret = 0 ∧
    (ocelot_setup_tc_cls_matchall platform64 collabOk ⟨false, 1, 7⟩
        ⟨TC_CLSMATCHALL_DESTROY, ⟨[]⟩, 7⟩ true).tc.police_id = 0 ∧
    (ocelot_setup_tc_cls_matchall platform64 collabOk ⟨false, 1, 7⟩
        ⟨TC_CLSMATCHALL_DESTROY, ⟨[]⟩, 7⟩ true).tc.offload_cnt + 1 = 1 :=
  have h := (C2_destroy_owner_and_foreign platform64 collabOk ⟨false, 1, 7⟩
    ⟨TC_CLSMATCHALL_DESTROY, ⟨[]⟩, 7⟩ (by decide) rfl).1 rfl rfl
  ⟨h.1, h.2.2.1, h.2.2.2.2.2 (by decide) (by decide)⟩

/-- Claim C3: on a port whose block is not shared and whose owner is 0 or the
cookie of the event, an ingress REPLACE with exactly one police action whose
install succeeds returns 0, sets the owner to the cookie, increments the
offload count by one in unsigned long arithmetic (exactly one more whenever
the incremented count is representable), leaves the shared flag as it was,
and calls the policer install once with the computed configuration, in the
same-cookie case as well. -/
theorem C3_replace_installs (P : Platform) (X : Collab)
    (tc : ocelot_port_tc) (f : tc_cls_matchall_offload)
    (a : flow_action_entry)
    (hcmd : f.command = TC_CLSMATCHALL_REPLACE)
    (hact : f.action.entries = [a]) (hid : a.id = FLOW_ACTION_POLICE)
    (hns : tc.block_shared = false)
    (hown : tc.police_id = 0 ∨ tc.police_id = f.cookie)
    (hadd : X.ocelot_port_policer_add
      ⟨pol_rate a.police_rate_bytes_ps,
       pol_burst P a.police_rate_bytes_ps a.police_burst⟩ = 0) :
    (ocelot_setup_tc_cls_matchall P X tc f true).ret = 0 ∧
    (ocelot_setup_tc_cls_matchall P X tc f true).tc.police_id = f.cookie ∧
    (ocelot_setup_tc_cls_matchall P X tc f true).tc.offload_cnt =
      (tc.offload_cnt + 1) % 2 ^ P.BITS_PER_LONG ∧
    (tc.offload_cnt + 1 < 2 ^ P.BITS_PER_LONG →
      (ocelot_setup_tc_cls_matchall P X tc f true).tc.offload_cnt =
        tc.offload_cnt + 1) ∧
    (ocelot_setup_tc_cls_matchall P X tc f true).tc.block_shared =
      tc.block_shared ∧
    (ocelot_setup_tc_cls_matchall P X tc f true).calls =
      [Call.ocelot_port_policer_add
        ⟨pol_rate a.police_rate_bytes_ps,
         pol_burst P a.police_rate_bytes_ps a.police_burst⟩] := by
  have hguard : ¬ (tc.police_id ≠ 0 ∧ tc.police_id ≠ f.cookie) := by
    rcases hown with h | h
    · exact fun hh => hh.1 h
    · exact fun hh => hh.2 h
  have hres : ocelot_setup_tc_cls_matchall P X tc f true =
      ⟨0, ⟨tc.block_shared, offload_cnt_inc P tc.offload_cnt, f.cookie⟩,
        [Call.ocelot_port_policer_add
          ⟨pol_rate a.police_rate_bytes_ps,
           pol_burst P a.police_rate_bytes_ps a.police_burst⟩]⟩ := by
    simp only [ocelot_setup_tc_cls_matchall, hcmd, hact, hid, hns,
      flow_offload_has_one_action]
    simp [hguard, hadd]
  rw [hres]
  refine ⟨rfl, rfl, rfl, ?_, rfl, rfl⟩
  intro hlt
  show offload_cnt_inc P tc.offload_cnt = tc.offload_cnt + 1
  exact Nat.mod_eq_of_lt hlt

/-- Instance of C3: a same-cookie REPLACE on a port already owned by 7. -/
theorem C3_replace_installs_witness :
    (ocelot_setup_tc_cls_matchall platform64 collabOk ⟨false, 1, 7⟩
        ⟨TC_CLSMATCHALL_REPLACE, policeAction 125000 1000000, 7⟩ true).ret
      = 0 ∧
    (ocelot_setup_tc_cls_matchall platform64 collabOk ⟨false, 1, 7⟩
        ⟨TC_CLSMATCHALL_REPLACE, policeAction 125000 1000000, 7⟩
        true).tc.offload_cnt = 2 :=
  have h := C3_replace_installs platform64 collabOk ⟨false, 1, 7⟩
    ⟨TC_CLSMATCHALL_REPLACE, policeAction 125000 1000000, 7⟩
    ⟨FLOW_ACTION_POLICE, 1000000, 125000⟩ rfl rfl rfl rfl (Or.inr rfl) rfl
  ⟨h.1, h.2.2.2.1 (by decide)⟩

/-- Claim C4: with the shared flag set, a matchall REPLACE returns
-EOPNOTSUPP, makes no call to the policer resource and leaves the tc state
as it was, for every direction, action list, cookie and owner. -/
theorem C4_replace_on_shared_block (P : Platform) (X : Collab)
    (tc : ocelot_port_tc) (f : tc_cls_matchall_offload) (ingress : Bool)
    (hcmd : f.command = TC_CLSMATCHALL_REPLACE)
    (hsh : tc.block_shared = true) :
    ocelot_setup_tc_cls_matchall P X tc f ingress =
      ⟨-EOPNOTSUPP, tc, []⟩ := by
  cases ingress <;>
    simp [ocelot_setup_tc_cls_matchall, hcmd, hsh]

/-- Instance of C4: a well-formed police REPLACE on a shared block. -/
theorem C4_replace_on_shared_block_witness :
    ocelot_setup_tc_cls_matchall platform64 collabOk ⟨true, 0, 0⟩
      ⟨TC_CLSMATCHALL_REPLACE, policeAction 125000 1000000, 7⟩ true
      = ⟨-EOPNOTSUPP, ⟨true, 0, 0⟩, []⟩ :=
  C4_replace_on_shared_block platform64 collabOk ⟨true, 0, 0⟩
    ⟨TC_CLSMATCHALL_REPLACE, policeAction 125000 1000000, 7⟩ true rfl rfl

/-- Claim C5: for a REPLACE that passes validation, with a 64-bit rate r in
bytes per second, the policer resource is called with
rate = ((r / 1000 mod 2^32) * 8) mod 2^32; when r / 1000 < 2^29 this is
exactly (r / 1000) * 8, a multiple of 8; and this differs from 8 * r / 1000
for some rates (r = 999 gives 0, not 7). -/
theorem C5_rate_divide_first (P : Platform) (X : Collab)
    (tc : ocelot_port_tc) (f : tc_cls_matchall_offload)
    (a : flow_action_entry)
    (hcmd : f.command = TC_CLSMATCHALL_REPLACE)
    (hact : f.action.entries = [a]) (hid : a.id = FLOW_ACTION_POLICE)
    (hns : tc.block_shared = false)
    (hown : tc.police_id = 0 ∨ tc.police_id = f.cookie)
    (hr : a.police_rate_bytes_ps < 2 ^ 64) :
    (∃ pol : ocelot_policer,
      (ocelot_setup_tc_cls_matchall P X tc f true).calls =
        [Call.ocelot_port_policer_add pol] ∧
      pol.rate = ((a.police_rate_bytes_ps / 1000) % 2 ^ 32 * 8) % 2 ^ 32 ∧
      (a.police_rate_bytes_ps / 1000 < 2 ^ 29 →
        pol.rate = a.police_rate_bytes_ps / 1000 * 8 ∧ 8 ∣ pol.rate)) ∧
    pol_rate 999 ≠ 8 * 999 / 1000 := by
  have hrate : pol_rate a.police_rate_bytes_ps =
      ((a.police_rate_bytes_ps / 1000) % 2 ^ 32 * 8) % 2 ^ 32 := by
    unfold pol_rate div_u64
    rw [Nat.mod_eq_of_lt hr]
    norm_num
  refine ⟨⟨⟨pol_rate a.police_rate_bytes_ps,
    pol_burst P a.police_rate_bytes_ps a.police_burst⟩,
    matchall_replace_calls P X tc f a hcmd hact hid hns hown, hrate, ?_⟩, ?_⟩
  · intro hsmall
    have hval : pol_rate a.police_rate_bytes_ps =
        a.police_rate_bytes_ps / 1000 * 8 := by
      rw [hrate]
      omega
    exact ⟨hval, by rw [hval]; exact Dvd.intro_left _ rfl⟩
  · decide

/-- Instance of C5: 125000 bytes per second gives rate 1000. -/
theorem C5_rate_divide_first_witness :
    ∃ pol : ocelot_policer,
      (ocelot_setup_tc_cls_matchall platform64 collabOk ⟨false, 0, 0⟩
        ⟨TC_CLSMATCHALL_REPLACE, policeAction 125000 1000000, 7⟩ true).calls =
        [Call.ocelot_port_policer_add pol] ∧
      pol.rate = 1000 := by
  obtain ⟨⟨pol, hcalls, _, hsmall⟩, _⟩ :=
    C5_rate_divide_first platform64 collabOk ⟨false, 0, 0⟩
      ⟨TC_CLSMATCHALL_REPLACE, policeAction 125000 1000000, 7⟩
      ⟨FLOW_ACTION_POLICE, 1000000, 125000⟩ rfl rfl rfl rfl (Or.inl rfl)
      (by decide)
  exact ⟨pol, hcalls, (hsmall (by decide)).1⟩

/-- Claim C6, refuted as stated: a REPLACE that passes validation with
1000 bytes per second programs the policer with rate 8, so with no burst
value is the call the one with rate 8000. -/
theorem C6_rate_1000_is_not_8000 :
    (ocelot_setup_tc_cls_matchall platform64 collabOk ⟨false, 0, 0⟩
        ⟨TC_CLSMATCHALL_REPLACE, policeAction 1000 1000000, 7⟩ true).calls =
      [Call.ocelot_port_policer_add ⟨8, 1⟩] ∧
    ¬ ∃ burst : Nat,
      (ocelot_setup_tc_cls_matchall platform64 collabOk ⟨false, 0, 0⟩
        ⟨TC_CLSMATCHALL_REPLACE, policeAction 1000 1000000, 7⟩ true).calls =
      [Call.ocelot_port_policer_add ⟨8000, burst⟩] := by
  have hcalls :
      (ocelot_setup_tc_cls_matchall platform64 collabOk ⟨false, 0, 0⟩
        ⟨TC_CLSMATCHALL_REPLACE, policeAction 1000 1000000, 7⟩ true).calls =
      [Call.ocelot_port_policer_add ⟨8, 1⟩] := by decide
  refine ⟨hcalls, ?_⟩
  rintro ⟨burst, hb⟩
  rw [hcalls] at hb
  simp at hb

/-- Claim C6, amended: a REPLACE that passes validation programs the policer
with rate 0 when the rate is 999 bytes per second, and with rate 8 (the
quotient 1 times 8) when the rate is 1000 bytes per second. -/
theorem C6_rate_boundary (P : Platform) (X : Collab)
    (tc : ocelot_port_tc) (f : tc_cls_matchall_offload)
    (a : flow_action_entry)
    (hcmd : f.command = TC_CLSMATCHALL_REPLACE)
    (hact : f.action.entries = [a]) (hid : a.id = FLOW_ACTION_POLICE)
    (hns : tc.block_shared = false)
    (hown : tc.police_id = 0 ∨ tc.police_id = f.cookie) :
    (a.police_rate_bytes_ps = 999 →
      (ocelot_setup_tc_cls_matchall P X tc f true).calls =
        [Call.ocelot_port_policer_add
          ⟨0, pol_burst P 999 a.police_burst⟩]) ∧
    (a.police_rate_bytes_ps = 1000 →
      (ocelot_setup_tc_cls_matchall P X tc f true).calls =
        [Call.ocelot_port_policer_add
          ⟨8, pol_burst P 1000 a.police_burst⟩]) := by
  have hcalls := matchall_replace_calls P X tc f a hcmd hact hid hns hown
  constructor
  · intro h
    rw [hcalls, h]
    have : pol_rate 999 = 0 := by decide
    rw [this]
  · intro h
    rw [hcalls, h]
    have : pol_rate 1000 = 8 := by decide
    rw [this]

/-- Instance of C6 amended: both boundary rates on the 64-bit platform. -/
theorem C6_rate_boundary_witness :
    (ocelot_setup_tc_cls_matchall platform64 collabOk ⟨false, 0, 0⟩
        ⟨TC_CLSMATCHALL_REPLACE, policeAction 999 1000000, 7⟩ true).calls =
      [Call.ocelot_port_policer_add ⟨0, pol_burst platform64 999 1000000⟩] ∧
    (ocelot_setup_tc_cls_matchall platform64 collabOk ⟨false, 0, 0⟩
        ⟨TC_CLSMATCHALL_REPLACE, policeAction 1000 1000000, 7⟩ true).calls =
      [Call.ocelot_port_policer_add ⟨8, pol_burst platform64 1000 1000000⟩] :=
  ⟨(C6_rate_boundary platform64 collabOk ⟨false, 0, 0⟩
      ⟨TC_CLSMATCHALL_REPLACE, policeAction 999 1000000, 7⟩
      ⟨FLOW_ACTION_POLICE, 1000000, 999⟩ rfl rfl rfl rfl (Or.inl rfl)).1 rfl,
   (C6_rate_boundary platform64 collabOk ⟨false, 0, 0⟩
      ⟨TC_CLSMATCHALL_REPLACE, policeAction 1000 1000000, 7⟩
      ⟨FLOW_ACTION_POLICE, 1000000, 1000⟩ rfl rfl rfl rfl (Or.inl rfl)).2 rfl⟩

/-- Claim C7, refuted as stated: with 2^40 bytes per second and a burst of
2^30 ns (2^24 ticks of 64 ns) the 64-bit product wraps to 0 and the policer
is called with burst 0, while the exact product divided by the tick
frequency and truncated to 32 bits is 3770581613. -/
theorem C7_burst_product_overflows :
    (ocelot_setup_tc_cls_matchall platform64 collabOk ⟨false, 0, 0⟩
        ⟨TC_CLSMATCHALL_REPLACE, policeAction (2 ^ 40) (2 ^ 30), 7⟩
        true).calls =
      [Call.ocelot_port_policer_add ⟨pol_rate (2 ^ 40), 0⟩] ∧
    (2 ^ 40 * platform64.PSCHED_NS2TICKS (2 ^ 30) /
        platform64.PSCHED_TICKS_PER_SEC) % 2 ^ 32 = 3770581613 := by
  constructor <;> decide

/-- Claim C7, amended: for a REPLACE that passes validation, with rate r and
burst duration d, the policer resource is called with
burst = ((r * ticks(d) mod 2^64) / (ticks_per_second mod 2^32)) mod 2^32;
when the product r * ticks(d) fits 64 bits and the tick frequency fits 32
bits this is the exact quotient r * ticks(d) / ticks_per_second truncated to
32 bits. -/
theorem C7_burst_wrapping_product (P : Platform) (X : Collab)
    (tc : ocelot_port_tc) (f : tc_cls_matchall_offload)
    (a : flow_action_entry)
    (hcmd : f.command = TC_CLSMATCHALL_REPLACE)
    (hact : f.action.entries = [a]) (hid : a.id = FLOW_ACTION_POLICE)
    (hns : tc.block_shared = false)
    (hown : tc.police_id = 0 ∨ tc.police_id = f.cookie) :
    ∃ pol : ocelot_policer,
      (ocelot_setup_tc_cls_matchall P X tc f true).calls =
        [Call.ocelot_port_policer_add pol] ∧
      pol.burst =
        ((a.police_rate_bytes_ps * P.PSCHED_NS2TICKS a.police_burst) % 2 ^ 64
          / (P.PSCHED_TICKS_PER_SEC % 2 ^ 32)) % 2 ^ 32 ∧
      (a.police_rate_bytes_ps * P.PSCHED_NS2TICKS a.police_burst < 2 ^ 64 →
        P.PSCHED_TICKS_PER_SEC < 2 ^ 32 →
        pol.burst =
          (a.police_rate_bytes_ps * P.PSCHED_NS2TICKS a.police_burst
            / P.PSCHED_TICKS_PER_SEC) % 2 ^ 32) := by
  refine ⟨⟨pol_rate a.police_rate_bytes_ps,
    pol_burst P a.police_rate_bytes_ps a.police_burst⟩,
    matchall_replace_calls P X tc f a hcmd hact hid hns hown, ?_, ?_⟩
  · show pol_burst P a.police_rate_bytes_ps a.police_burst = _
    unfold pol_burst div_u64
    rw [Nat.mod_mod]
  · intro hprod htps
    show pol_burst P a.police_rate_bytes_ps a.police_burst = _
    unfold pol_burst div_u64
    rw [Nat.mod_mod, Nat.mod_eq_of_lt hprod, Nat.mod_eq_of_lt htps]

/-- Instance of C7 amended: 125000 bytes per second with a 1 ms burst gives
a burst of 125 bytes. -/
theorem C7_burst_wrapping_product_witness :
    ∃ pol : ocelot_policer,
      (ocelot_setup_tc_cls_matchall platform64 collabOk ⟨false, 0, 0⟩
        ⟨TC_CLSMATCHALL_REPLACE, policeAction 125000 1000000, 7⟩ true).calls =
        [Call.ocelot_port_policer_add pol] ∧
      pol.burst = 125 := by
  obtain ⟨pol, hcalls, hburst, _⟩ :=
    C7_burst_wrapping_product platform64 collabOk ⟨false, 0, 0⟩
      ⟨TC_CLSMATCHALL_REPLACE, policeAction 125000 1000000, 7⟩
      ⟨FLOW_ACTION_POLICE, 1000000, 125000⟩ rfl rfl rfl rfl (Or.inl rfl)
  exact ⟨pol, hcalls, hburst.trans (by decide)⟩

/-- Claim C8: when the policer resource fails with a non-zero error e, a
REPLACE that passes validation returns exactly e, and so does a DESTROY with
the owner's cookie; in both cases the one call to the resource is made and
the tc state (owner, offload count, shared flag) is as it was. -/
theorem C8_resource_failure_propagates (P : Platform) (X : Collab)
    (tc : ocelot_port_tc) (f : tc_cls_matchall_offload) (e : Int)
    (he : e ≠ 0) :
    (∀ a : flow_action_entry,
      f.command = TC_CLSMATCHALL_REPLACE →
      f.action.entries = [a] → a.id = FLOW_ACTION_POLICE →
      tc.block_shared = false →
      (tc.police_id = 0 ∨ tc.police_id = f.cookie) →
      X.ocelot_port_policer_add
        ⟨pol_rate a.police_rate_bytes_ps,
         pol_burst P a.police_rate_bytes_ps a.police_burst⟩ = e →
      ocelot_setup_tc_cls_matchall P X tc f true =
        ⟨e, tc, [Call.ocelot_port_policer_add
          ⟨pol_rate a.police_rate_bytes_ps,
           pol_burst P a.police_rate_bytes_ps a.police_burst⟩]⟩) ∧
    (f.command = TC_CLSMATCHALL_DESTROY →
      f.cookie = tc.police_id →
      X.ocelot_port_policer_del = e →
      ocelot_setup_tc_cls_matchall P X tc f true =
        ⟨e, tc, [Call.ocelot_port_policer_del]⟩) := by
  constructor
  · intro a hcmd hact hid hns hown hadd
    have hguard : ¬ (tc.police_id ≠ 0 ∧ tc.police_id ≠ f.cookie) := by
      rcases hown with h | h
      · exact fun hh => hh.1 h
      · exact fun hh => hh.2 h
    simp only [ocelot_setup_tc_cls_matchall, hcmd, hact, hid, hns,
      flow_offload_has_one_action]
    simp [hguard, hadd, he]
  · intro hcmd hck hdel
    simp [ocelot_setup_tc_cls_matchall, hcmd, hck, hdel, he]

/-- Instance of C8: install and removal failing with -5. -/
theorem C8_resource_failure_propagates_witness :
    ocelot_setup_tc_cls_matchall platform64 (collabFail (-5)) ⟨false, 0, 0⟩
        ⟨TC_CLSMATCHALL_REPLACE, policeAction 125000 1000000, 7⟩ true =
      ⟨-5, ⟨false, 0, 0⟩, [Call.ocelot_port_policer_add ⟨1000, 125⟩]⟩ ∧
    ocelot_setup_tc_cls_matchall platform64 (collabFail (-5)) ⟨false, 1, 7⟩
        ⟨TC_CLSMATCHALL_DESTROY, ⟨[]⟩, 7⟩ true =
      ⟨-5, ⟨false, 1, 7⟩, [Call.ocelot_port_policer_del]⟩ :=
  ⟨(C8_resource_failure_propagates platform64 (collabFail (-5)) ⟨false, 0, 0⟩
      ⟨TC_CLSMATCHALL_REPLACE, policeAction 125000 1000000, 7⟩ (-5)
      (by decide)).1 ⟨FLOW_ACTION_POLICE, 1000000, 125000⟩
      rfl rfl rfl rfl (Or.inl rfl) rfl,
   (C8_resource_failure_propagates platform64 (collabFail (-5)) ⟨false, 1, 7⟩
      ⟨TC_CLSMATCHALL_DESTROY, ⟨[]⟩, 7⟩ (-5) (by decide)).2 rfl rfl rfl⟩

/-- Claim C9, refuted as stated: an ingress block request with an unrecognised
command returns -EOPNOTSUPP, and an ingress bind whose registration fails
returns that error, yet both have written the shared flag. -/
theorem C9_block_error_writes_shared_flag :
    (ocelot_setup_tc_block collabOk ⟨false, 0, 0⟩
        ⟨TC_BLOCK_OTHER 2, TCF_BLOCK_BINDER_TYPE_CLSACT_INGRESS, ⟨true⟩⟩) =
      ⟨-EOPNOTSUPP, ⟨true, 0, 0⟩, []⟩ ∧
    -EOPNOTSUPP ≠ 0 ∧
    (ocelot_setup_tc_block (collabRegisterFail (-12)) ⟨false, 0, 0⟩
        ⟨TC_BLOCK_BIND, TCF_BLOCK_BINDER_TYPE_CLSACT_INGRESS, ⟨true⟩⟩) =
      ⟨-12, ⟨true, 0, 0⟩,
        [Call.tcf_block_cb_register
          tc_setup_cb_t.ocelot_setup_tc_block_cb_ig]⟩ := by
  refine ⟨?_, ?_, ?_⟩ <;> decide

/-- Claim C9, amended: every call of the rule-event callback (and of
`ocelot_setup_tc_cls_matchall`) that returns an error leaves the whole tc
state as it was; every call of the block setup that returns an error leaves
the owner and the offload count as they were, leaves the shared flag as it
was when the direction is not ingress, and on the ingress direction has set
the shared flag to the sharing state of the block. -/
theorem C9_error_frame (P : Platform) (X : Collab) (tc : ocelot_port_tc) :
    (∀ (f : tc_cls_matchall_offload) (ingress : Bool),
      (ocelot_setup_tc_cls_matchall P X tc f ingress).ret ≠ 0 →
      (ocelot_setup_tc_cls_matchall P X tc f ingress).tc = tc) ∧
    (∀ (type : tc_setup_type) (type_data : tc_cls_matchall_offload)
      (ingress : Bool),
      (ocelot_setup_tc_block_cb P X type type_data tc ingress).ret ≠ 0 →
      (ocelot_setup_tc_block_cb P X type type_data tc ingress).tc = tc) ∧
    (∀ f : tc_block_offload,
      (ocelot_setup_tc_block X tc f).ret ≠ 0 →
      (ocelot_setup_tc_block X tc f).tc.police_id = tc.police_id ∧
      (ocelot_setup_tc_block X tc f).tc.offload_cnt = tc.offload_cnt ∧
      (f.binder_type ≠ TCF_BLOCK_BINDER_TYPE_CLSACT_INGRESS →
        (ocelot_setup_tc_block X tc f).tc = tc) ∧
      (f.binder_type = TCF_BLOCK_BINDER_TYPE_CLSACT_INGRESS →
        (ocelot_setup_tc_block X tc f).tc.block_shared =
          tcf_block_shared f.block)) := by
  refine ⟨?_, ?_, ?_⟩
  · intro f ingress hret
    exact (matchall_error_frame P X tc f ingress).resolve_left hret
  · intro type type_data ingress hret
    exact (block_cb_error_frame P X type type_data tc ingress).resolve_left hret
  · intro f _
    unfold ocelot_setup_tc_block
    split
    · rename_i hb
      rw [block_command_frame]
      simp [hb]
    · rename_i hb
      rw [block_command_frame]
      simp [hb]
    · rename_i hb1 hb2
      refine ⟨rfl, rfl, fun _ => rfl, fun h => absurd h hb1⟩

/-- Instance of C9 amended: an egress request with an unrecognised command
fails and leaves the tc state as it was. -/
theorem C9_error_frame_witness :
    (ocelot_setup_tc_block collabOk ⟨false, 1, 7⟩
        ⟨TC_BLOCK_OTHER 2, TCF_BLOCK_BINDER_TYPE_CLSACT_EGRESS, ⟨true⟩⟩).ret
      ≠ 0 ∧
    (ocelot_setup_tc_block collabOk ⟨false, 1, 7⟩
        ⟨TC_BLOCK_OTHER 2, TCF_BLOCK_BINDER_TYPE_CLSACT_EGRESS, ⟨true⟩⟩).tc
      = ⟨false, 1, 7⟩ :=
  ⟨by decide,
   ((C9_error_frame platform64 collabOk ⟨false, 1, 7⟩).2.2
      ⟨TC_BLOCK_OTHER 2, TCF_BLOCK_BINDER_TYPE_CLSACT_EGRESS, ⟨true⟩⟩
      (by decide)).2.2.1 (by decide)⟩

/-- Claim C10: when the base-stage check fails, the callback returns
-EOPNOTSUPP (a non-zero value), makes no call and leaves the tc state as it
was, for every event kind, event content and direction; a flower event,
which returns 0 when the check passes, is rejected in the same way. -/
theorem C10_chain0_check_rejects (P : Platform) (X : Collab)
    (type : tc_setup_type) (type_data : tc_cls_matchall_offload)
    (tc : ocelot_port_tc) (ingress : Bool)
    (hfail : X.tc_cls_can_offload_and_chain0 = false) :
    ocelot_setup_tc_block_cb P X type type_data tc ingress =
      ⟨-EOPNOTSUPP, tc, []⟩ ∧
    -EOPNOTSUPP ≠ 0 ∧
    ocelot_setup_tc_block_cb P X TC_SETUP_CLSFLOWER type_data tc ingress =
      ⟨-EOPNOTSUPP, tc, []⟩ ∧
    (∀ Y : Collab, Y.tc_cls_can_offload_and_chain0 = true →
      ocelot_setup_tc_block_cb P Y TC_SETUP_CLSFLOWER type_data tc ingress =
        ⟨0, tc, []⟩) := by
  refine ⟨?_, by decide, ?_, ?_⟩
  · simp [ocelot_setup_tc_block_cb, hfail]
  · simp [ocelot_setup_tc_block_cb, hfail]
  · intro Y hY
    simp [ocelot_setup_tc_block_cb, hY]

/-- Instance of C10: a valid police REPLACE outside the base stage. -/
theorem C10_chain0_check_rejects_witness :
    ocelot_setup_tc_block_cb platform64 ⟨fun _ => 0, 0, false, 0, 0⟩
        TC_SETUP_CLSMATCHALL
        ⟨TC_CLSMATCHALL_REPLACE, policeAction 125000 1000000, 7⟩
        ⟨false, 0, 0⟩ true =
      ⟨-EOPNOTSUPP, ⟨false, 0, 0⟩, []⟩ :=
  (C10_chain0_check_rejects platform64 ⟨fun _ => 0, 0, false, 0, 0⟩
    TC_SETUP_CLSMATCHALL
    ⟨TC_CLSMATCHALL_REPLACE, policeAction 125000 1000000, 7⟩
    ⟨false, 0, 0⟩ true rfl).1

/-- Claim C11: a matchall event whose command is STATS, or any value other
than REPLACE and DESTROY, returns -EOPNOTSUPP, makes no call and leaves the
tc state as it was, for every state, direction and cookie. -/
theorem C11_stats_and_other_commands (P : Platform) (X : Collab)
    (tc : ocelot_port_tc) (f : tc_cls_matchall_offload) (ingress : Bool)
    (hrep : f.command ≠ TC_CLSMATCHALL_REPLACE)
    (hdes : f.command ≠ TC_CLSMATCHALL_DESTROY) :
    ocelot_setup_tc_cls_matchall P X tc f ingress =
      ⟨-EOPNOTSUPP, tc, []⟩ := by
  unfold ocelot_setup_tc_cls_matchall
  split
  · rfl
  · split
    · rename_i h; exact absurd h hrep
    · rename_i h; exact absurd h hdes
    · rfl

/-- Instance of C11: a STATS event for the owner of the installed policer. -/
theorem C11_stats_and_other_commands_witness :
    ocelot_setup_tc_cls_matchall platform64 collabOk ⟨false, 1, 7⟩
      ⟨TC_CLSMATCHALL_STATS, policeAction 125000 1000000, 7⟩ true
      = ⟨-EOPNOTSUPP, ⟨false, 1, 7⟩, []⟩ :=
  C11_stats_and_other_commands platform64 collabOk ⟨false, 1, 7⟩
    ⟨TC_CLSMATCHALL_STATS, policeAction 125000 1000000, 7⟩ true
    (by decide) (by decide)

/-- Claim C12: on the egress direction a matchall event returns -EOPNOTSUPP,
makes no call (neither install nor removal) and leaves the tc state as it
was, whatever its command, cookie, actions and the state; and the egress
callback never changes the tc state nor calls a collaborator, whatever the
event kind. -/
theorem C12_egress_rejected (P : Platform) (X : Collab)
    (tc : ocelot_port_tc) (f : tc_cls_matchall_offload)
    (type : tc_setup_type) :
    ocelot_setup_tc_cls_matchall P X tc f false = ⟨-EOPNOTSUPP, tc, []⟩ ∧
    (ocelot_setup_tc_block_cb_eg P X type f tc).tc = tc ∧
    (ocelot_setup_tc_block_cb_eg P X type f tc).calls = [] := by
  have hm : ocelot_setup_tc_cls_matchall P X tc f false =
      ⟨-EOPNOTSUPP, tc, []⟩ := by
    simp [ocelot_setup_tc_cls_matchall]
  refine ⟨hm, ?_, ?_⟩
  · unfold ocelot_setup_tc_block_cb_eg ocelot_setup_tc_block_cb
    split
    · rfl
    · split
      · rw [hm]
      · rfl
      · rfl
  · unfold ocelot_setup_tc_block_cb_eg ocelot_setup_tc_block_cb
    split
    · rfl
    · split
      · rw [hm]
      · rfl
      · rfl

/-- Claim C13: when the base-stage check passes, the callback dispatches by
kind: a matchall event returns the result of `ocelot_setup_tc_cls_matchall`
with direction true from the ingress callback and false from the egress one;
a flower event returns 0 with no call and no state change on both
directions; every other kind returns -EOPNOTSUPP with no call and no state
change. -/
theorem C13_callback_dispatch (P : Platform) (X : Collab)
    (type_data : tc_cls_matchall_offload) (tc : ocelot_port_tc)
    (hchk : X.tc_cls_can_offload_and_chain0 = true) :
    ocelot_setup_tc_block_cb_ig P X TC_SETUP_CLSMATCHALL type_data tc =
      ocelot_setup_tc_cls_matchall P X tc type_data true ∧
    ocelot_setup_tc_block_cb_eg P X TC_SETUP_CLSMATCHALL type_data tc =
      ocelot_setup_tc_cls_matchall P X tc type_data false ∧
    ocelot_setup_tc_block_cb_ig P X TC_SETUP_CLSFLOWER type_data tc =
      ⟨0, tc, []⟩ ∧
    ocelot_setup_tc_block_cb_eg P X TC_SETUP_CLSFLOWER type_data tc =
      ⟨0, tc, []⟩ ∧
    (∀ type : tc_setup_type, type ≠ TC_SETUP_CLSMATCHALL →
      type ≠ TC_SETUP_CLSFLOWER →
      ocelot_setup_tc_block_cb_ig P X type type_data tc =
        ⟨-EOPNOTSUPP, tc, []⟩ ∧
      ocelot_setup_tc_block_cb_eg P X type type_data tc =
        ⟨-EOPNOTSUPP, tc, []⟩) := by
  refine ⟨?_, ?_, ?_, ?_, ?_⟩
  · simp [ocelot_setup_tc_block_cb_ig, ocelot_setup_tc_block_cb, hchk]
  · simp [ocelot_setup_tc_block_cb_eg, ocelot_setup_tc_block_cb, hchk]
  · simp [ocelot_setup_tc_block_cb_ig, ocelot_setup_tc_block_cb, hchk]
  · simp [ocelot_setup_tc_block_cb_eg, ocelot_setup_tc_block_cb, hchk]
  · intro type hm hf
    cases type with
    | TC_SETUP_CLSMATCHALL => exact absurd rfl hm
    | TC_SETUP_CLSFLOWER => exact absurd rfl hf
    | TC_SETUP_BLOCK =>
      simp [ocelot_setup_tc_block_cb_ig, ocelot_setup_tc_block_cb_eg,
        ocelot_setup_tc_block_cb, hchk]
    | TC_SETUP_OTHER n =>
      simp [ocelot_setup_tc_block_cb_ig, ocelot_setup_tc_block_cb_eg,
        ocelot_setup_tc_block_cb, hchk]

/-- Instance of C13: a police REPLACE through the ingress callback installs,
and a block-kind event is rejected. -/
theorem C13_callback_dispatch_witness :
    ocelot_setup_tc_block_cb_ig platform64 collabOk TC_SETUP_CLSMATCHALL
        ⟨TC_CLSMATCHALL_REPLACE, policeAction 125000 1000000, 7⟩
        ⟨false, 0, 0⟩ =
      ocelot_setup_tc_cls_matchall platform64 collabOk ⟨false, 0, 0⟩
        ⟨TC_CLSMATCHALL_REPLACE, policeAction 125000 1000000, 7⟩ true ∧
    ocelot_setup_tc_block_cb_ig platform64 collabOk TC_SETUP_BLOCK
        ⟨TC_CLSMATCHALL_REPLACE, policeAction 125000 1000000, 7⟩
        ⟨false, 0, 0⟩ = ⟨-EOPNOTSUPP, ⟨false, 0, 0⟩, []⟩ :=
  have h := C13_callback_dispatch platform64 collabOk
    ⟨TC_CLSMATCHALL_REPLACE, policeAction 125000 1000000, 7⟩
    ⟨false, 0, 0⟩ rfl
  ⟨h.1, (h.2.2.2.2 TC_SETUP_BLOCK (by decide) (by decide)).1⟩

/-- Claim C14: after a bind request on the ingress direction the shared flag
equals the sharing state of the block at the call; after a bind request on
the egress direction the shared flag is as it was; in both cases the owner
and the offload count are as they were. -/
theorem C14_bind_samples_shared_flag (X : Collab) (tc : ocelot_port_tc)
    (f : tc_block_offload) (_hcmd : f.command = TC_BLOCK_BIND) :
    (f.binder_type = TCF_BLOCK_BINDER_TYPE_CLSACT_INGRESS →
      (ocelot_setup_tc_block X tc f).tc =
        ⟨tcf_block_shared f.block, tc.offload_cnt, tc.police_id⟩) ∧
    (f.binder_type = TCF_BLOCK_BINDER_TYPE_CLSACT_EGRESS →
      (ocelot_setup_tc_block X tc f).tc = tc) := by
  constructor
  · intro hb
    unfold ocelot_setup_tc_block
    rw [hb]
    exact block_command_frame X _ f _
  · intro hb
    unfold ocelot_setup_tc_block
    rw [hb]
    exact block_command_frame X _ f _

/-- Instance of C14: an ingress bind of a shared block on a port that owns
a policer. -/
theorem C14_bind_samples_shared_flag_witness :
    (ocelot_setup_tc_block collabOk ⟨false, 1, 7⟩
        ⟨TC_BLOCK_BIND, TCF_BLOCK_BINDER_TYPE_CLSACT_INGRESS, ⟨true⟩⟩).tc =
      ⟨true, 1, 7⟩ :=
  (C14_bind_samples_shared_flag collabOk ⟨false, 1, 7⟩
    ⟨TC_BLOCK_BIND, TCF_BLOCK_BINDER_TYPE_CLSACT_INGRESS, ⟨true⟩⟩ rfl).1 rfl

/-- Claim C15: `ocelot_setup_tc_block` returns -EOPNOTSUPP with no call at
all for a direction that is neither ingress nor egress; for a bind whose
registration fails it returns that error after the registration call alone;
for a bind whose registration succeeds it returns the result of the flower
bind hook, called after the registration; for an unbind it calls the flower
unbind hook, then unregisters the callback of the same direction, and
returns 0. -/
theorem C15_block_return_and_call_order (X : Collab) (tc : ocelot_port_tc)
    (f : tc_block_offload) :
    (f.binder_type ≠ TCF_BLOCK_BINDER_TYPE_CLSACT_INGRESS →
      f.binder_type ≠ TCF_BLOCK_BINDER_TYPE_CLSACT_EGRESS →
      ocelot_setup_tc_block X tc f = ⟨-EOPNOTSUPP, tc, []⟩) ∧
    (∀ cb : tc_setup_cb_t,
      (f.binder_type = TCF_BLOCK_BINDER_TYPE_CLSACT_INGRESS ∧
          cb = tc_setup_cb_t.ocelot_setup_tc_block_cb_ig) ∨
        (f.binder_type = TCF_BLOCK_BINDER_TYPE_CLSACT_EGRESS ∧
          cb = tc_setup_cb_t.ocelot_setup_tc_block_cb_eg) →
      (f.command = TC_BLOCK_BIND → X.tcf_block_cb_register ≠ 0 →
        (ocelot_setup_tc_block X tc f).ret = X.tcf_block_cb_register ∧
        (ocelot_setup_tc_block X tc f).calls =
          [Call.tcf_block_cb_register cb]) ∧
      (f.command = TC_BLOCK_BIND → X.tcf_block_cb_register = 0 →
        (ocelot_setup_tc_block X tc f).ret =
          X.ocelot_setup_tc_block_flower_bind ∧
        (ocelot_setup_tc_block X tc f).calls =
          [Call.tcf_block_cb_register cb,
           Call.ocelot_setup_tc_block_flower_bind]) ∧
      (f.command = TC_BLOCK_UNBIND →
        (ocelot_setup_tc_block X tc f).ret = 0 ∧
        (ocelot_setup_tc_block X tc f).calls =
          [Call.ocelot_setup_tc_block_flower_unbind,
           Call.tcf_block_cb_unregister cb])) := by
  constructor
  · intro hi he
    unfold ocelot_setup_tc_block
    split
    · rename_i h; exact absurd h hi
    · rename_i h; exact absurd h he
    · rfl
  · intro cb hdir
    rcases hdir with ⟨hb, hcb⟩ | ⟨hb, hcb⟩ <;>
    · subst hcb
      refine ⟨?_, ?_, ?_⟩
      · intro hcmd hreg
        simp [ocelot_setup_tc_block, ocelot_setup_tc_block_command, hb, hcmd,
          hreg]
      · intro hcmd hreg
        simp [ocelot_setup_tc_block, ocelot_setup_tc_block_command, hb, hcmd,
          hreg]
      · intro hcmd
        simp [ocelot_setup_tc_block, ocelot_setup_tc_block_command, hb, hcmd]

/-- Instance of C15: an ingress bind whose registration fails with -12. -/
theorem C15_block_return_and_call_order_witness :
    (ocelot_setup_tc_block (collabRegisterFail (-12)) ⟨false, 0, 0⟩
        ⟨TC_BLOCK_BIND, TCF_BLOCK_BINDER_TYPE_CLSACT_INGRESS, ⟨false⟩⟩).ret =
      -12 ∧
    (ocelot_setup_tc_block (collabRegisterFail (-12)) ⟨false, 0, 0⟩
        ⟨TC_BLOCK_BIND, TCF_BLOCK_BINDER_TYPE_CLSACT_INGRESS, ⟨false⟩⟩).calls =
      [Call.tcf_block_cb_register tc_setup_cb_t.ocelot_setup_tc_block_cb_ig] :=
  ((C15_block_return_and_call_order (collabRegisterFail (-12)) ⟨false, 0, 0⟩
      ⟨TC_BLOCK_BIND, TCF_BLOCK_BINDER_TYPE_CLSACT_INGRESS, ⟨false⟩⟩).2
      tc_setup_cb_t.ocelot_setup_tc_block_cb_ig (Or.inl ⟨rfl, rfl⟩)).1 rfl
    (by decide)

/-- Claim C16, refuted as stated: in the scenario the REPLACE with cookie 7,
125000 bytes per second and a burst of 1 ms programs the policer with rate
1000 (and burst 125), not with rate 1000000. -/
theorem C16_scenario_rate_is_1000 :
    ocelot_setup_tc_block_cb_ig platform64 collabOk TC_SETUP_CLSMATCHALL
        ⟨TC_CLSMATCHALL_REPLACE, policeAction 125000 1000000, 7⟩
        ⟨false, 0, 0⟩ =
      ⟨0, ⟨false, 1, 7⟩, [Call.ocelot_port_policer_add ⟨1000, 125⟩]⟩ ∧
    ¬ ∃ burst : Nat,
      (ocelot_setup_tc_block_cb_ig platform64 collabOk TC_SETUP_CLSMATCHALL
        ⟨TC_CLSMATCHALL_REPLACE, policeAction 125000 1000000, 7⟩
        ⟨false, 0, 0⟩).calls =
      [Call.ocelot_port_policer_add ⟨1000000, burst⟩] := by
  have hstep :
      ocelot_setup_tc_block_cb_ig platform64 collabOk TC_SETUP_CLSMATCHALL
        ⟨TC_CLSMATCHALL_REPLACE, policeAction 125000 1000000, 7⟩
        ⟨false, 0, 0⟩ =
      ⟨0, ⟨false, 1, 7⟩, [Call.ocelot_port_policer_add ⟨1000, 125⟩]⟩ := by
    decide
  refine ⟨hstep, ?_⟩
  rintro ⟨burst, hb⟩
  rw [hstep] at hb
  simp at hb

/-- Claim C16, amended: the scenario, from the initial state with every
collaborator succeeding, on the 64-bit platform with the 64 ns tick, each
step starting in the state the previous one left: the ingress bind of a
non-shared block returns 0; REPLACE cookie 7 (125000 bytes per second, 1 ms)
returns 0, programs rate 1000 and sets the owner to 7; REPLACE cookie 9
returns -EEXIST with the owner still 7; DESTROY cookie 7 returns 0 and
clears the owner; a second DESTROY cookie 7 returns -ENOENT; the unbind
returns 0. -/
theorem C16_scenario :
    ocelot_setup_tc_block collabOk ⟨false, 0, 0⟩
        ⟨TC_BLOCK_BIND, TCF_BLOCK_BINDER_TYPE_CLSACT_INGRESS, ⟨false⟩⟩ =
      ⟨0, ⟨false, 0, 0⟩,
        [Call.tcf_block_cb_register tc_setup_cb_t.ocelot_setup_tc_block_cb_ig,
         Call.ocelot_setup_tc_block_flower_bind]⟩ ∧
    ocelot_setup_tc_block_cb_ig platform64 collabOk TC_SETUP_CLSMATCHALL
        ⟨TC_CLSMATCHALL_REPLACE, policeAction 125000 1000000, 7⟩
        ⟨false, 0, 0⟩ =
      ⟨0, ⟨false, 1, 7⟩, [Call.ocelot_port_policer_add ⟨1000, 125⟩]⟩ ∧
    ocelot_setup_tc_block_cb_ig platform64 collabOk TC_SETUP_CLSMATCHALL
        ⟨TC_CLSMATCHALL_REPLACE, policeAction 125000 1000000, 9⟩
        ⟨false, 1, 7⟩ =
      ⟨-EEXIST, ⟨false, 1, 7⟩, []⟩ ∧
    ocelot_setup_tc_block_cb_ig platform64 collabOk TC_SETUP_CLSMATCHALL
        ⟨TC_CLSMATCHALL_DESTROY, ⟨[]⟩, 7⟩ ⟨false, 1, 7⟩ =
      ⟨0, ⟨false, 0, 0⟩, [Call.ocelot_port_policer_del]⟩ ∧
    ocelot_setup_tc_block_cb_ig platform64 collabOk TC_SETUP_CLSMATCHALL
        ⟨TC_CLSMATCHALL_DESTROY, ⟨[]⟩, 7⟩ ⟨false, 0, 0⟩ =
      ⟨-ENOENT, ⟨false, 0, 0⟩, []⟩ ∧
    ocelot_setup_tc_block collabOk ⟨false, 0, 0⟩
        ⟨TC_BLOCK_UNBIND, TCF_BLOCK_BINDER_TYPE_CLSACT_INGRESS, ⟨false⟩⟩ =
      ⟨0, ⟨false, 0, 0⟩,
        [Call.ocelot_setup_tc_block_flower_unbind,
         Call.tcf_block_cb_unregister
           tc_setup_cb_t.ocelot_setup_tc_block_cb_ig]⟩ := by
  refine ⟨?_, ?_, ?_, ?_, ?_, ?_⟩ <;> decide

/-- Claim C17, refuted as stated: on a port with nothing installed and an
offload count of 0, an ingress DESTROY with cookie 0 passes the owner
comparison, calls the policer removal, returns 0 and wraps the offload
count. -/
theorem C17_destroy_cookie_zero_on_empty_port :
    ocelot_setup_tc_cls_matchall platform64 collabOk ⟨false, 0, 0⟩
        ⟨TC_CLSMATCHALL_DESTROY, ⟨[]⟩, 0⟩ true =
      ⟨0, ⟨false, 2 ^ 64 - 1, 0⟩, [Call.ocelot_port_policer_del]⟩ := by
  decide

/-- Claim C17, amended: on a port with nothing installed (owner 0) an ingress
DESTROY whose cookie is not 0 returns -ENOENT, makes no call to the policer
removal and leaves the offload count, and the rest of the tc state, as it
was. -/
theorem C17_destroy_on_empty_port (P : Platform) (X : Collab)
    (tc : ocelot_port_tc) (f : tc_cls_matchall_offload)
    (hempty : tc.police_id = 0)
    (hcmd : f.command = TC_CLSMATCHALL_DESTROY)
    (hck : f.cookie ≠ 0) :
    ocelot_setup_tc_cls_matchall P X tc f true = ⟨-ENOENT, tc, []⟩ := by
  have hne : tc.police_id ≠ f.cookie := by
    rw [hempty]
    exact fun h => hck h.symm
  simp [ocelot_setup_tc_cls_matchall, hcmd, hne]

/-- Instance of C17 amended: DESTROY cookie 7 on the initial state. -/
theorem C17_destroy_on_empty_port_witness :
    ocelot_setup_tc_cls_matchall platform64 collabOk ⟨false, 0, 0⟩
        ⟨TC_CLSMATCHALL_DESTROY, ⟨[]⟩, 7⟩ true =
      ⟨-ENOENT, ⟨false, 0, 0⟩, []⟩ :=
  C17_destroy_on_empty_port platform64 collabOk ⟨false, 0, 0⟩
    ⟨TC_CLSMATCHALL_DESTROY, ⟨[]⟩, 7⟩ rfl rfl (by decide)

/-- Claim C18, refuted as stated: an ingress unbind request and an ingress
request with an unrecognised command both overwrite the shared flag, so after
an ingress bind of a non-shared block followed by such a request for a shared
block the flag is no longer the value sampled at the bind. -/
theorem C18_ingress_unbind_writes_shared_flag :
    (ocelot_setup_tc_block collabOk ⟨false, 0, 0⟩
        ⟨TC_BLOCK_UNBIND, TCF_BLOCK_BINDER_TYPE_CLSACT_INGRESS, ⟨true⟩⟩).tc
      = ⟨true, 0, 0⟩ ∧
    (ocelot_setup_tc_block collabOk ⟨false, 0, 0⟩
        ⟨TC_BLOCK_OTHER 2, TCF_BLOCK_BINDER_TYPE_CLSACT_INGRESS, ⟨true⟩⟩).tc
      = ⟨true, 0, 0⟩ ∧
    run platform64 ⟨false, 0, 0⟩
        [Request.block collabOk
          ⟨TC_BLOCK_BIND, TCF_BLOCK_BINDER_TYPE_CLSACT_INGRESS, ⟨false⟩⟩,
         Request.block collabOk
          ⟨TC_BLOCK_UNBIND, TCF_BLOCK_BINDER_TYPE_CLSACT_INGRESS, ⟨true⟩⟩]
      = ⟨true, 0, 0⟩ := by
  refine ⟨?_, ?_, ?_⟩ <;> decide

/-- Claim C18, amended: every block request on the ingress direction (bind,
unbind or unrecognised command) sets the shared flag to the sharing state of
its block; every block request on another direction and every rule event
(matchall, flower or other, on either callback) leaves the flag as it was;
so after any sequence of requests the flag is the sharing state carried by
the latest ingress block request, or its starting value when there was
none. -/
theorem C18_shared_flag_written_by_ingress_requests (P : Platform)
    (tc : ocelot_port_tc) :
    (∀ (X : Collab) (f : tc_block_offload),
      f.binder_type = TCF_BLOCK_BINDER_TYPE_CLSACT_INGRESS →
      (ocelot_setup_tc_block X tc f).tc.block_shared =
        tcf_block_shared f.block) ∧
    (∀ (X : Collab) (f : tc_block_offload),
      f.binder_type ≠ TCF_BLOCK_BINDER_TYPE_CLSACT_INGRESS →
      (ocelot_setup_tc_block X tc f).tc.block_shared = tc.block_shared) ∧
    (∀ (X : Collab) (type : tc_setup_type)
      (type_data : tc_cls_matchall_offload) (ingress : Bool),
      (ocelot_setup_tc_block_cb P X type type_data tc ingress).tc.block_shared
        = tc.block_shared) ∧
    (∀ rs : List Request,
      (run P tc rs).block_shared =
        latest_ingress_sample tc.block_shared rs) := by
  refine ⟨?_, ?_, ?_, ?_⟩
  · intro X f hb
    exact (block_shared_flag X tc f).1 hb
  · intro X f hb
    exact (block_shared_flag X tc f).2 hb
  · intro X type type_data ingress
    exact deliver_keeps_shared P tc ⟨X, type, type_data, ingress⟩
  · intro rs
    exact run_shared_flag P rs tc

/-- Instance of C18 amended: an egress request with an unrecognised command
for a shared block leaves the flag. -/
theorem C18_shared_flag_written_by_ingress_requests_witness :
    (ocelot_setup_tc_block collabOk ⟨false, 1, 7⟩
        ⟨TC_BLOCK_OTHER 2, TCF_BLOCK_BINDER_TYPE_CLSACT_EGRESS, ⟨true⟩⟩
      ).tc.block_shared = false :=
  (C18_shared_flag_written_by_ingress_requests platform64 ⟨false, 1, 7⟩).2.1
    collabOk ⟨TC_BLOCK_OTHER 2, TCF_BLOCK_BINDER_TYPE_CLSACT_EGRESS, ⟨true⟩⟩
    (by decide)

/-- Claim C19, refuted as stated: after an ingress bind, two successful
REPLACE events with the same cookie 7 leave owner 7 with an offload count
of 2; and after an ingress bind, a DESTROY with cookie 0 on the empty port
succeeds and wraps the offload count from 0 to 2^64 - 1. -/
theorem C19_count_exceeds_one_and_underflows :
    run platform64 ⟨false, 0, 0⟩
        [Request.block collabOk
          ⟨TC_BLOCK_BIND, TCF_BLOCK_BINDER_TYPE_CLSACT_INGRESS, ⟨false⟩⟩,
         Request.rule ⟨collabOk, TC_SETUP_CLSMATCHALL,
          ⟨TC_CLSMATCHALL_REPLACE, policeAction 125000 1000000, 7⟩, true⟩,
         Request.rule ⟨collabOk, TC_SETUP_CLSMATCHALL,
          ⟨TC_CLSMATCHALL_REPLACE, policeAction 125000 1000000, 7⟩, true⟩]
      = ⟨false, 2, 7⟩ ∧
    run platform64 ⟨false, 0, 0⟩
        [Request.block collabOk
          ⟨TC_BLOCK_BIND, TCF_BLOCK_BINDER_TYPE_CLSACT_INGRESS, ⟨false⟩⟩,
         Request.rule ⟨collabOk, TC_SETUP_CLSMATCHALL,
          ⟨TC_CLSMATCHALL_DESTROY, ⟨[]⟩, 0⟩, true⟩]
      = ⟨false, 2 ^ 64 - 1, 0⟩ := by
  constructor <;> decide

/-- Claim C19, amended: on a platform whose unsigned long has at least one
bit, in every state reached from the initial state (owner 0, count 0) by a
sequence of rule events and block requests, with arbitrary collaborator
outcomes, in which no matchall event carries cookie 0 and no matchall
REPLACE carries the cookie of the owner at the time it arrives, the offload
count is 1 if the owner is not 0 and 0 otherwise. -/
theorem C19_count_matches_owner (P : Platform) (block_shared : Bool)
    (rs : List Request) (hbits : 0 < P.BITS_PER_LONG)
    (hreg : regular_trace P ⟨block_shared, 0, 0⟩ rs = true) :
    (run P ⟨block_shared, 0, 0⟩ rs).offload_cnt =
      if (run P ⟨block_shared, 0, 0⟩ rs).police_id ≠ 0 then 1 else 0 :=
  run_count_matches_owner P hbits rs ⟨block_shared, 0, 0⟩ (by simp) hreg

/-- Instance of C19 amended: bind, REPLACE 7, REPLACE 9 (rejected),
DESTROY 7, REPLACE 9. -/
theorem C19_count_matches_owner_witness :
    (run platform64 ⟨false, 0, 0⟩
        [Request.block collabOk
          ⟨TC_BLOCK_BIND, TCF_BLOCK_BINDER_TYPE_CLSACT_INGRESS, ⟨false⟩⟩,
         Request.rule ⟨collabOk, TC_SETUP_CLSMATCHALL,
          ⟨TC_CLSMATCHALL_REPLACE, policeAction 125000 1000000, 7⟩, true⟩,
         Request.rule ⟨collabOk, TC_SETUP_CLSMATCHALL,
          ⟨TC_CLSMATCHALL_REPLACE, policeAction 125000 1000000, 9⟩, true⟩,
         Request.rule ⟨collabOk, TC_SETUP_CLSMATCHALL,
          ⟨TC_CLSMATCHALL_DESTROY, ⟨[]⟩, 7⟩, true⟩,
         Request.rule ⟨collabOk, TC_SETUP_CLSMATCHALL,
          ⟨TC_CLSMATCHALL_REPLACE, policeAction 125000 1000000, 9⟩, true⟩]
      ).offload_cnt = 1 :=
  (C19_count_matches_owner platform64 false
    [Request.block collabOk
      ⟨TC_BLOCK_BIND, TCF_BLOCK_BINDER_TYPE_CLSACT_INGRESS, ⟨false⟩⟩,
     Request.rule ⟨collabOk, TC_SETUP_CLSMATCHALL,
      ⟨TC_CLSMATCHALL_REPLACE, policeAction 125000 1000000, 7⟩, true⟩,
     Request.rule ⟨collabOk, TC_SETUP_CLSMATCHALL,
      ⟨TC_CLSMATCHALL_REPLACE, policeAction 125000 1000000, 9⟩, true⟩,
     Request.rule ⟨collabOk, TC_SETUP_CLSMATCHALL,
      ⟨TC_CLSMATCHALL_DESTROY, ⟨[]⟩, 7⟩, true⟩,
     Request.rule ⟨collabOk, TC_SETUP_CLSMATCHALL,
      ⟨TC_CLSMATCHALL_REPLACE, policeAction 125000 1000000, 9⟩, true⟩]
    (by decide) (by decide)).trans (by decide)

/-- Claim C20, refuted as stated: from the initial state, a successful
REPLACE with cookie 0 leaves the slot occupied while the owner is 0; a
successful REPLACE with cookie 7 right after it also installs, so two events
with distinct cookies have both installed with no removal in between. -/
theorem C20_cookie_zero_breaks_ownership :
    slot_run platform64 (slot_init false)
        [⟨collabOk, TC_SETUP_CLSMATCHALL,
          ⟨TC_CLSMATCHALL_REPLACE, policeAction 125000 1000000, 0⟩, true⟩]
      = ⟨⟨false, 1, 0⟩, true, 0, false⟩ ∧
    slot_run platform64 (slot_init false)
        [⟨collabOk, TC_SETUP_CLSMATCHALL,
          ⟨TC_CLSMATCHALL_REPLACE, policeAction 125000 1000000, 0⟩, true⟩,
         ⟨collabOk, TC_SETUP_CLSMATCHALL,
          ⟨TC_CLSMATCHALL_REPLACE, policeAction 125000 1000000, 7⟩, true⟩]
      = ⟨⟨false, 2, 7⟩, true, 7, true⟩ := by
  constructor <;> decide

/-- Claim C20, amended: with the hardware slot modelled as a flag set by a
successful install and cleared by a successful removal, in every state
reached from the initial state (nothing installed, owner 0) by a sequence of
rule events whose matchall cookies are not 0, with arbitrary collaborator
outcomes, the slot is occupied if and only if the owner is not 0, the owner
is then the cookie of the event whose REPLACE last installed, and no install
has succeeded with a cookie other than that of the previous installer while
the slot was occupied. -/
theorem C20_slot_agrees_with_owner (P : Platform) (block_shared : Bool)
    (es : List RuleEvent)
    (hck : ∀ e ∈ es,
      e.type = TC_SETUP_CLSMATCHALL → e.type_data.cookie ≠ 0) :
    ((slot_run P (slot_init block_shared) es).installed = true ↔
        (slot_run P (slot_init block_shared) es).tc.police_id ≠ 0) ∧
    ((slot_run P (slot_init block_shared) es).installed = true →
        (slot_run P (slot_init block_shared) es).tc.police_id =
          (slot_run P (slot_init block_shared) es).installer) ∧
    (slot_run P (slot_init block_shared) es).clash = false :=
  slot_run_agrees P es (slot_init block_shared)
    (by simp [slot_init]) (by simp [slot_init]) rfl hck

/-- Instance of C20 amended: REPLACE 7 installs, REPLACE 9 is rejected. -/
theorem C20_slot_agrees_with_owner_witness :
    (slot_run platform64 (slot_init false)
        [⟨collabOk, TC_SETUP_CLSMATCHALL,
          ⟨TC_CLSMATCHALL_REPLACE, policeAction 125000 1000000, 7⟩, true⟩,
         ⟨collabOk, TC_SETUP_CLSMATCHALL,
          ⟨TC_CLSMATCHALL_REPLACE, policeAction 125000 1000000, 9⟩, true⟩]
      ).clash = false ∧
    slot_run platform64 (slot_init false)
        [⟨collabOk, TC_SETUP_CLSMATCHALL,
          ⟨TC_CLSMATCHALL_REPLACE, policeAction 125000 1000000, 7⟩, true⟩,
         ⟨collabOk, TC_SETUP_CLSMATCHALL,
          ⟨TC_CLSMATCHALL_REPLACE, policeAction 125000 1000000, 9⟩, true⟩]
      = ⟨⟨false, 1, 7⟩, true, 7, false⟩ :=
  ⟨(C20_slot_agrees_with_owner platform64 false
      [⟨collabOk, TC_SETUP_CLSMATCHALL,
        ⟨TC_CLSMATCHALL_REPLACE, policeAction 125000 1000000, 7⟩, true⟩,
       ⟨collabOk, TC_SETUP_CLSMATCHALL,
        ⟨TC_CLSMATCHALL_REPLACE, policeAction 125000 1000000, 9⟩, true⟩]
      (by
        intro e he _
        simp only [List.mem_cons, List.mem_singleton, List.mem_nil_iff,
          or_false] at he
        rcases he with h | h <;> (subst h; decide))).2.2,
   by decide⟩

end Ocelot
